import Mathlib

/-!
Verification of the highlight-detection engine of the `highlighter` repository.

This file is a shallow embedding, in Lean 4, of the two Python modules that
the specification's claims are about:

  * `app/services/editorial_memory.py` — the editorial bias layer
    (`EditorialBiasProfile`, `EditorialLearningProfile`, `apply_editorial_bias`);
  * `app/services/highlight_ai.py` — the detection engine
    (segment scoring, punchline detection, window building,
    validation gates, ranking/backfill: `detect_highlights`).

Modelling conventions:

  * Python `float` seconds and ratios are modelled by `Q`, an exact
    fraction of machine-unbounded integers with a positive denominator.
    All arithmetic appearing in the source (`+ - * /`, comparisons,
    `max`/`min`, `round`) is exact on the values the engine manipulates,
    so `Q` coincides with the float semantics except on results that
    would need more than 53 bits of mantissa; none of the claims hinges
    on float rounding.  `Q` is used instead of Mathlib's `ℚ` so that all
    computations reduce inside the kernel (no `Nat.gcd`).
  * Python `int` is `Int`; Python `round` (banker's rounding) is `pyRound`.
  * Python lists are `List`; dictionaries keyed by strings are
    association lists with first-match lookup (Python dicts here are
    only written once per key).
  * Mutation of the `reasons` list by `apply_editorial_bias` is modelled
    by returning the new list.
  * Python `re.search` over the small fixed pattern set of the source is
    modelled by the executable matcher `REsearch` over a syntax tree `RE`
    that mirrors each pattern constructor for constructor (word boundary,
    character classes, `?`, `+`, alternation).
  * `while` loops are bounded recursions: the source's loops either carry
    an explicit attempt counter (mirrored as the recursion argument) or
    strictly shrink/grow an index range inside the transcript (mirrored
    with fuel that provably dominates the iteration count).
  * `db_session` is always `None` in the modelled entry point, which in
    the source short-circuits `load_editorial_bias` to the zero profile;
    the optional `editorial_bias` argument mirrors this exactly.
-/

/-! ## Exact fractions that compute in the kernel -/

/-- An exact rational: numerator over a positive denominator, not
necessarily in lowest terms.  Stands for the Python `float` values of the
engine (see module comment). -/
structure Q where
  num : Int
  den : Int
  pos : 0 < den

instance : OfNat Q n := ⟨⟨(n : Int), 1, by decide⟩⟩

instance : Add Q := ⟨fun x y => ⟨x.num * y.den + y.num * x.den, x.den * y.den, mul_pos x.pos y.pos⟩⟩

instance : Neg Q := ⟨fun x => ⟨-x.num, x.den, x.pos⟩⟩

instance : Sub Q := ⟨fun x y => ⟨x.num * y.den - y.num * x.den, x.den * y.den, mul_pos x.pos y.pos⟩⟩

instance : Mul Q := ⟨fun x y => ⟨x.num * y.num, x.den * y.den, mul_pos x.pos y.pos⟩⟩

/-- Division.  The engine only ever divides by strictly positive values;
for a non-positive divisor we still produce a well-formed fraction (sign
moved to the numerator, `0` for division by zero) so that division is total. -/
def Q.divQ (x y : Q) : Q :=
  if h : 0 < y.num then ⟨x.num * y.den, x.den * y.num, mul_pos x.pos h⟩
  else if h' : y.num < 0 then ⟨-(x.num * y.den), x.den * -y.num, mul_pos x.pos (by omega)⟩
  else ⟨0, 1, by decide⟩

instance : Div Q := ⟨Q.divQ⟩

instance : LE Q := ⟨fun x y => x.num * y.den ≤ y.num * x.den⟩

instance : LT Q := ⟨fun x y => x.num * y.den < y.num * x.den⟩

instance (x y : Q) : Decidable (x ≤ y) := Int.decLe _ _

instance (x y : Q) : Decidable (x < y) := Int.decLt _ _

/-- Python `max(a, b)`: returns `a` when `a ≥ b` (ties keep the first argument). -/
def Q.pymax (x y : Q) : Q := if y ≤ x then x else y

/-- Python `min(a, b)`: returns `a` when `a ≤ b` (ties keep the first argument). -/
def Q.pymin (x y : Q) : Q := if x ≤ y then x else y

/-- Numeric equality of fractions (representation-independent). -/
def Q.equiv (x y : Q) : Prop := x.num * y.den = y.num * x.den

/-- Embedding of Python `int`s into `Q`. -/
def Q.ofInt (i : Int) : Q := ⟨i, 1, by decide⟩

/-- Python's `math.floor` on an exact fraction. -/
def Q.floor (x : Q) : Int := Int.fdiv x.num x.den

/-- Python 3 `round` with no digits: round half to even, returning an integer. -/
def pyRound (x : Q) : Int :=
  let f : Int := x.floor
  let r : Q := x - Q.ofInt f
  if r < (1 : Q) / 2 then f
  else if (1 : Q) / 2 < r then f + 1
  else if f % 2 = 0 then f else f + 1

/-! ## String helpers mirroring the Python string primitives -/

/-- The characters Python's `str.split()` / `str.strip()` treat as whitespace
(ASCII subset, which covers every string the engine manipulates). -/
def isPyWs (c : Char) : Bool :=
  c = ' ' || c = '\t' || c = '\n' || c = '\r' || c = '\x0b' || c = '\x0c'

/-- Python `str.lower()` (ASCII case mapping). -/
def pyLower (s : String) : String := ⟨s.data.map Char.toLower⟩

/-- Python `str.strip()`. -/
def pyStrip (s : String) : String :=
  ⟨((s.data.dropWhile isPyWs).reverse.dropWhile isPyWs).reverse⟩

/-- One word of `str.split()`: longest prefix of non-whitespace. -/
def splitWsAux : List Char → List Char → List String
  | [], acc => if acc.isEmpty then [] else [⟨acc.reverse⟩]
  | c :: rest, acc =>
    if isPyWs c then
      if acc.isEmpty then splitWsAux rest [] else ⟨acc.reverse⟩ :: splitWsAux rest []
    else splitWsAux rest (c :: acc)

/-- Python `str.split()` with no separator: split on whitespace runs, dropping empties. -/
def pySplit (s : String) : List String := splitWsAux s.data []

/-- Python `sep.join(words)`. -/
def joinWith (sep : String) : List String → String
  | [] => ""
  | [w] => w
  | w :: ws => w ++ sep ++ joinWith sep ws

/-- Python `needle in haystack` on strings (substring containment). -/
def containsSubAux (needle : List Char) : List Char → Bool
  | [] => needle.isEmpty
  | c :: rest => needle.isPrefixOf (c :: rest) || containsSubAux needle rest

def containsSub (hay needle : String) : Bool := containsSubAux needle.data hay.data

/-- Python `str.startswith(p)`. -/
def pyStartsWith (s p : String) : Bool := p.data.isPrefixOf s.data

/-- Python `str.startswith((p1, p2, ...))`. -/
def pyStartsWithAny (s : String) (ps : List String) : Bool := ps.any (pyStartsWith s)

/-- Python `str.endswith(p)`. -/
def pyEndsWith (s p : String) : Bool := p.data.reverse.isPrefixOf s.data.reverse

/-- Python `any(ch.isdigit() for ch in text)` (ASCII digits). -/
def hasDigit (s : String) : Bool := s.data.any Char.isDigit

/-- The tokenizer `_tokenize`: lowercase, keep alphanumerics / space / hyphen,
replace everything else by a space, then split on whitespace. -/
def pyTokenize (text : String) : List String :=
  splitWsAux ((text.data.map Char.toLower).map
    (fun ch => if ch.isAlphanum || ch = ' ' || ch = '-' then ch else ' ')) []

/-! ## A small executable regex matcher

Each `re.search` pattern of the source is transcribed constructor for
constructor into the syntax tree `RE`; `REsearch` decides whether the
pattern matches anywhere in the text, which is all the source ever asks
(`re.search(...)` used as a boolean). -/

/-- Word characters for `\b` and `\w` (`re` ASCII semantics, which agree
with the Unicode semantics on the engine's ASCII texts). -/
def isWordChar (c : Char) : Bool := c.isAlphanum || c = '_'

/-- Characters matched by `.` (anything but a newline). -/
def isDotChar (c : Char) : Bool := c ≠ '\n'

inductive RE where
  | eps : RE
  | lit : List Char → RE
  | seq : RE → RE → RE
  | alt : RE → RE → RE
  | opt : RE → RE
  | starCls : (Char → Bool) → RE
  | plusCls : (Char → Bool) → RE
  | bnd : RE

/-- All ways a `p*` can consume a prefix: each split point while `p` holds,
together with the last character consumed (for later `\b` checks). -/
def starRem (p : Char → Bool) : Option Char → List Char → List (Option Char × List Char)
  | pc, [] => [(pc, [])]
  | pc, c :: rest => (pc, c :: rest) :: (if p c then starRem p (some c) rest else [])

/-- Zero-width word-boundary test between the previous character and the rest. -/
def boundaryOk (pc : Option Char) (s : List Char) : Bool :=
  (match pc with | none => false | some c => isWordChar c)
    != (match s with | [] => false | c :: _ => isWordChar c)

/-- All ways `r` can match a prefix of `s`, returning the character just
before each remainder (for `\b`) and the remainder itself. -/
def REmatch : RE → Option Char → List Char → List (Option Char × List Char)
  | .eps, pc, s => [(pc, s)]
  | .lit w, pc, s =>
    if w.isPrefixOf s then
      [((match w.getLast? with | some c => some c | none => pc), s.drop w.length)]
    else []
  | .seq a b, pc, s => (REmatch a pc s).flatMap (fun pr => REmatch b pr.1 pr.2)
  | .alt a b, pc, s => REmatch a pc s ++ REmatch b pc s
  | .opt a, pc, s => (pc, s) :: REmatch a pc s
  | .starCls p, pc, s => starRem p pc s
  | .plusCls _, _, [] => []
  | .plusCls p, _, c :: rest => if p c then starRem p (some c) rest else []
  | .bnd, pc, s => if boundaryOk pc s then [(pc, s)] else []

/-- Does `r` match starting at some position of the remaining text? -/
def REsearchFrom (r : RE) : Option Char → List Char → Bool
  | pc, [] => !(REmatch r pc []).isEmpty
  | pc, c :: rest => !(REmatch r pc (c :: rest)).isEmpty || REsearchFrom r (some c) rest

/-- Python `re.search(r, s) is not None`. -/
def REsearch (r : RE) (s : String) : Bool := REsearchFrom r none s.data

/-- Concatenation of a pattern list. -/
def reSeq (l : List RE) : RE := l.foldr RE.seq RE.eps

/-- A literal word. -/
def reWord (w : String) : RE := RE.lit w.data

/-- `\s+`. -/
def wsPlus : RE := RE.plusCls isPyWs

/-- `\b w \b` for a literal word `w` — the shape of `rf"\b{re.escape(m)}\b"`. -/
def reBWord (w : String) : RE := reSeq [RE.bnd, reWord w, RE.bnd]

/-! ## Embedding of `app/services/editorial_memory.py` -/

/-- First-match lookup in an association list, modelling Python dict access
(`k in d`, `d[k]`, `d.get(k)`). -/
def alookup (m : List (String × α)) (k : String) : Option α :=
  (m.find? (fun p => p.1 == k)).map (fun p => p.2)

/-- Python `_clamp(value, min_val, max_val) = max(min_val, min(max_val, value))`. -/
def intClamp (value minVal maxVal : Int) : Int := max minVal (min maxVal value)

/-- The dataclass `EditorialBiasProfile`. -/
structure EditorialBiasProfile where
  category_bias : List (String × Int)
  duration_bias : List (String × Int)
  punchline_bias : Int
  early_hook_bias : Int
  feedback_count : Int

/-- The all-defaults `EditorialBiasProfile()` constructor value. -/
def EditorialBiasProfile.default : EditorialBiasProfile :=
  ⟨[], [], 0, 0, 0⟩

/-- Method `EditorialBiasProfile.is_zero`. -/
def EditorialBiasProfile.is_zero (p : EditorialBiasProfile) : Bool :=
  p.feedback_count == 0 &&
  p.category_bias.isEmpty &&
  p.duration_bias.isEmpty &&
  p.punchline_bias == 0 &&
  p.early_hook_bias == 0

/-- The dataclass `EditorialLearningProfile` (the fields read by the engine). -/
structure EditorialLearningProfile where
  feedback_count : Int
  preferred_duration_range : List (String × (Q × Q))
  common_failure_patterns : List String
  common_success_patterns : List String
  rating_bias_by_category : List (String × Int)
  rating_bias_by_duration : List (String × Int)
  rating_bias_by_hook_bucket : List (String × Int)
  rating_bias_punchline : Int
  min_duration_delta_by_category : List (String × Q)
  max_duration_delta_by_category : List (String × Q)
  max_pre_context_delta_by_category : List (String × Q)
  max_post_context_delta_by_category : List (String × Q)
  require_insight_all : Bool
  opening_strictness : Int

/-- The all-defaults `EditorialLearningProfile()` constructor value. -/
def EditorialLearningProfile.default : EditorialLearningProfile :=
  ⟨0, [], [], [], [], [], [], 0, [], [], [], [], false, 0⟩

/-- Method `EditorialLearningProfile.is_zero`. -/
def EditorialLearningProfile.is_zero (p : EditorialLearningProfile) : Bool :=
  p.feedback_count == 0

/-- The guard `learning_profile is None or learning_profile.is_zero()`. -/
def learningAbsentOrZero (lp : Option EditorialLearningProfile) : Bool :=
  match lp with
  | none => true
  | some p => p.is_zero

/-- `_duration_bucket`. -/
def durationBucket (clip_duration : Q) : String :=
  if clip_duration < 12 then "<12s"
  else if clip_duration < 18 then "12-18s"
  else if clip_duration < 30 then "18-30s"
  else ">30s"

/-- `_hook_bucket` on an actual float (the engine always passes one). -/
def hookBucket (hook_position : Q) : String :=
  if hook_position ≤ (25 : Q) / 100 then "early"
  else if hook_position ≤ (55 : Q) / 100 then "mid"
  else "late"

/-- Format an `Int` with an explicit sign, as Python `f"{b:+d}"`. -/
def fmtSigned (i : Int) : String :=
  if 0 ≤ i then "+" ++ toString i else toString i

/-- Format a non-negative-or-negative `Int` as Python `str`. -/
def fmtInt (i : Int) : String := toString i

/-- The bias-accumulation core of `apply_editorial_bias`: the list of
applied `(label, delta)` adjustments and their raw (uncapped) sum. -/
def biasAccum (category : String) (clip_duration : Q)
    (is_punchline_arg : Bool) (hook_position : Q)
    (bias_profile : EditorialBiasProfile)
    (learning_profile : Option EditorialLearningProfile)
    (insight_pass_arg : Option Bool) (full_insight : Option Bool) :
    List (String × Int) × Int :=
  let applied0 : List (String × Int) := []
  let total0 : Int := 0
  -- Category bias
  let (applied1, total1) :=
    match alookup bias_profile.category_bias category with
    | some bias =>
      if bias ≠ 0 then
        (applied0 ++ [(category ++ " category preference", bias)], total0 + bias)
      else (applied0, total0)
    | none => (applied0, total0)
  -- Duration bias
  let bucket := durationBucket clip_duration
  let (applied2, total2) :=
    match alookup bias_profile.duration_bias bucket with
    | some bias =>
      if bias ≠ 0 then
        (applied1 ++ [(bucket ++ " duration preference", bias)], total1 + bias)
      else (applied1, total1)
    | none => (applied1, total1)
  -- Punchline bias
  let (applied3, total3) :=
    if is_punchline_arg && bias_profile.punchline_bias ≠ 0 then
      (applied2 ++ [("punchline preference", bias_profile.punchline_bias)],
       total2 + bias_profile.punchline_bias)
    else (applied2, total2)
  -- Early hook bias (hook in first 25%)
  let (applied4, total4) :=
    if hook_position ≤ (25 : Q) / 100 && bias_profile.early_hook_bias ≠ 0 then
      (applied3 ++ [("early hook preference", bias_profile.early_hook_bias)],
       total3 + bias_profile.early_hook_bias)
    else (applied3, total3)
  -- Rich user feedback learning
  let (applied12, total12) :=
    match learning_profile with
    | some lp =>
      if !lp.is_zero then
        -- Rating-derived biases
        let (applied5, total5) :=
          match alookup lp.rating_bias_by_category category with
          | some b =>
            if b ≠ 0 then (applied4 ++ [("rating preference (category)", b)], total4 + b)
            else (applied4, total4)
          | none => (applied4, total4)
        let bucket2 := durationBucket clip_duration
        let (applied6, total6) :=
          match alookup lp.rating_bias_by_duration bucket2 with
          | some b =>
            if b ≠ 0 then (applied5 ++ [("rating preference (duration)", b)], total5 + b)
            else (applied5, total5)
          | none => (applied5, total5)
        let hook_b := hookBucket hook_position
        let (applied7, total7) :=
          match alookup lp.rating_bias_by_hook_bucket hook_b with
          | some b =>
            if b ≠ 0 then (applied6 ++ [("rating preference (hook)", b)], total6 + b)
            else (applied6, total6)
          | none => (applied6, total6)
        let (applied8, total8) :=
          if is_punchline_arg && lp.rating_bias_punchline ≠ 0 then
            (applied7 ++ [("rating preference (punchline)", lp.rating_bias_punchline)],
             total7 + lp.rating_bias_punchline)
          else (applied7, total7)
        -- Weakness/strength pattern matching (bounded, explainable)
        let (applied9, total9) :=
          match alookup lp.preferred_duration_range category with
          | some (pref_min, pref_max) =>
            let (a, t) :=
              if clip_duration < pref_min &&
                 lp.common_failure_patterns.contains "too_short" then
                (applied8 ++ [("menghindari klip terlalu pendek", (-2 : Int))], total8 - 2)
              else (applied8, total8)
            let (a, t) :=
              if pref_max < clip_duration &&
                 lp.common_failure_patterns.contains "too_long" then
                (a ++ [("menghindari klip terlalu panjang", (-1 : Int))], t - 1)
              else (a, t)
            let (a, t) :=
              if pref_min ≤ clip_duration && clip_duration ≤ pref_max &&
                 lp.common_success_patterns.contains "good_duration" then
                (a ++ [("sesuai durasi preferensi pengguna", (1 : Int))], t + 1)
              else (a, t)
            (a, t)
          | none => (applied8, total8)
        -- Opening preference
        let (applied10, total10) :=
          if lp.common_failure_patterns.contains "weak_opening" &&
             (40 : Q) / 100 < hook_position then
            (applied9 ++ [("menghindari opening lemah", (-1 : Int))], total9 - 1)
          else (applied9, total9)
        let (applied11, total11) :=
          if lp.common_success_patterns.contains "strong_opening" &&
             hook_position ≤ (25 : Q) / 100 then
            (applied10 ++ [("opening kuat", (1 : Int))], total10 + 1)
          else (applied10, total10)
        -- Insight preference
        let (appliedA, totalA) :=
          match insight_pass_arg with
          | some ip =>
            if (lp.common_failure_patterns.contains "no_insight" ||
                lp.common_failure_patterns.contains "missing_reasoning" ||
                lp.common_failure_patterns.contains "no_takeaway") && !ip then
              (applied11 ++ [("menghindari kurang insight", (-3 : Int))], total11 - 3)
            else (applied11, total11)
          | none => (applied11, total11)
        let (appliedB, totalB) :=
          match full_insight with
          | some fi =>
            if fi && (lp.common_success_patterns.contains "clear_insight" ||
                      lp.common_success_patterns.contains "strong_reasoning" ||
                      lp.common_success_patterns.contains "clear_takeaway") then
              (appliedA ++ [("insight jelas (feedback)", (2 : Int))], totalA + 2)
            else (appliedA, totalA)
          | none => (appliedA, totalA)
        (appliedB, totalB)
      else (applied4, total4)
    | none => (applied4, total4)
  (applied12, total12)

/-- `apply_editorial_bias`.  The Python function mutates `reasons` and returns
the final score; here it returns `(final_score, reasons)`. -/
def apply_editorial_bias
    (base_score : Int) (category : String) (clip_duration : Q)
    (is_punchline_arg : Bool) (hook_position : Q)
    (bias_profile : EditorialBiasProfile) (reasons : List String)
    (learning_profile : Option EditorialLearningProfile)
    (insight_pass_arg : Option Bool) (full_insight : Option Bool) :
    Int × List String :=
  -- If there's no learning and no historical bias, keep score unchanged.
  if bias_profile.is_zero && learningAbsentOrZero learning_profile then
    (base_score, reasons)
  else
    let (applied12, total12) := biasAccum category clip_duration is_punchline_arg
      hook_position bias_profile learning_profile insight_pass_arg full_insight
    -- Cap total bias at ±4
    let capped_bias := intClamp total12 (-4) 4
    -- Add explanation to reasons
    let reasons1 :=
      if capped_bias ≠ 0 then
        let msg :=
          if (match learning_profile with
              | some lp => !lp.is_zero
              | none => false) then
            if 0 < capped_bias then
              "Disesuaikan dari feedback pengguna (+" ++ fmtInt capped_bias ++ ")"
            else
              "Menghindari pola yang sering dinilai buruk (" ++ fmtInt capped_bias ++ ")"
          else
            if 0 < capped_bias then
              "Editorial preference match (+" ++ fmtInt capped_bias ++ ")"
            else
              "Historical pattern mismatch (" ++ fmtInt capped_bias ++ ")"
        let withMsg := reasons ++ [msg]
        if 1 < applied12.length then
          withMsg ++
            ["Bias breakdown: " ++
              joinWith ", " (applied12.map (fun p => p.1 ++ ": " ++ fmtSigned p.2))]
        else withMsg
      else reasons
    (base_score + capped_bias, reasons1)

/-! ## Embedding of `app/services/highlight_ai.py` — preliminaries -/

/-- One transcript segment `{"start": float, "duration": float, "text": str}`. -/
structure Seg where
  start : Q
  duration : Q
  text : String

/-- Default segment for total list indexing (the source never indexes out of
range; see the range invariants proved below). -/
def dfltSeg : Seg := ⟨0, 0, ""⟩

def segText (ts : List Seg) (i : Nat) : String := (ts.getD i dfltSeg).text

def segStartQ (ts : List Seg) (i : Nat) : Q := (ts.getD i dfltSeg).start

def segEndQ (ts : List Seg) (i : Nat) : Q :=
  (ts.getD i dfltSeg).start + (ts.getD i dfltSeg).duration

/-! ### `_clean_transcript_text` -/

def eatChar (c : Char) : List Char → Option (List Char)
  | x :: r => if x = c then some r else none
  | [] => none

def eatExactDigits : Nat → List Char → Option (List Char)
  | 0, s => some s
  | _ + 1, [] => none
  | n + 1, c :: s => if c.isDigit then eatExactDigits n s else none

/-- Greedy `\d{1,2}` followed by a non-digit separator (`:` or `.` in the
timestamp patterns), for which maximal munch agrees with backtracking. -/
def eatOneOrTwoDigits : List Char → Option (List Char)
  | [] => none
  | [c] => if c.isDigit then some [] else none
  | c :: d :: s =>
    if c.isDigit then (if d.isDigit then some s else some (d :: s)) else none

/-- `<\d{1,2}:\d{2}:\d{2}\.\d{3}>` at the head of the list. -/
def matchTsHMS : List Char → Option (List Char)
  | '<' :: s => do
    let s ← eatOneOrTwoDigits s
    let s ← eatChar ':' s
    let s ← eatExactDigits 2 s
    let s ← eatChar ':' s
    let s ← eatExactDigits 2 s
    let s ← eatChar '.' s
    let s ← eatExactDigits 3 s
    eatChar '>' s
  | _ => none

/-- `<\d{1,2}:\d{2}\.\d{3}>` at the head of the list. -/
def matchTsMS : List Char → Option (List Char)
  | '<' :: s => do
    let s ← eatOneOrTwoDigits s
    let s ← eatChar ':' s
    let s ← eatExactDigits 2 s
    let s ← eatChar '.' s
    let s ← eatExactDigits 3 s
    eatChar '>' s
  | _ => none

/-- `<\d{1,2}\.\d{3}>` at the head of the list. -/
def matchTsS : List Char → Option (List Char)
  | '<' :: s => do
    let s ← eatOneOrTwoDigits s
    let s ← eatChar '.' s
    let s ← eatExactDigits 3 s
    eatChar '>' s
  | _ => none

def isAsciiLetter (c : Char) : Bool :=
  ('a' ≤ c && c ≤ 'z') || ('A' ≤ c && c ≤ 'Z')

/-- After `</?[a-z]+` has begun, consume `[^>]*>`; the first letter already
subsumes into `[^>]*`, so scanning to the first `>` matches the regex. -/
def eatTagRest : List Char → Option (List Char)
  | [] => none
  | '>' :: r => some r
  | _ :: r => eatTagRest r

/-- `</?[a-z]+[^>]*>` (with `re.IGNORECASE`) at the head of the list. -/
def matchHtmlTag : List Char → Option (List Char)
  | '<' :: s =>
    let s1 := match s with | '/' :: r => r | _ => s
    (match s1 with
     | c :: r => if isAsciiLetter c then eatTagRest r else none
     | [] => none)
  | _ => none

/-- `re.sub(pattern, '', text)`: drop every non-overlapping leftmost match.
Fuel dominates the number of steps, since each step consumes at least one
character (every matcher that succeeds consumes the leading `<`). -/
def subRemove (m : List Char → Option (List Char)) : Nat → List Char → List Char
  | 0, s => s
  | _ + 1, [] => []
  | fuel + 1, c :: s =>
    match m (c :: s) with
    | some rest => subRemove m fuel rest
    | none => c :: subRemove m fuel s

/-- Drop immediately repeated words, case-insensitively (`prev` is the
lowercase of the last kept word). -/
def dedupWords : Option String → List String → List String
  | _, [] => []
  | prev, w :: ws =>
    let wl := pyLower w
    if prev == some wl then dedupWords prev ws
    else w :: dedupWords (some wl) ws

/-- `_clean_transcript_text`. -/
def cleanTranscriptText (text : String) : String :=
  if text == "" then ""
  else
    let s := text.data
    let s := subRemove matchTsHMS (s.length + 1) s
    let s := subRemove matchTsMS (s.length + 1) s
    let s := subRemove matchTsS (s.length + 1) s
    let s := subRemove matchHtmlTag (s.length + 1) s
    -- Normalize whitespace: `' '.join(text.split())`
    let t := joinWith " " (splitWsAux s [])
    -- Deduplicate immediate repeated words (caption overlap)
    let words := pySplit t
    pyStrip (joinWith " " (dedupWords none words))

/-! ### Lexicons (`_filler_and_stopwords` and friends) -/

def fillerWords : List String :=
  ["eee", "ee", "eh", "em", "umm", "hmm", "nah", "oke", "ok", "ya", "yah",
   "anu", "gitu", "gini", "kayak", "kaya", "nih", "sih", "deh", "dong", "kan",
   "aja", "lah", "loh", "lho", "tau", "tahu", "maksudnya"]

def stopWords : List String :=
  ["yang", "dan", "atau", "di", "ke", "dari", "untuk", "pada", "itu", "ini", "nya",
   "saya", "aku", "kita", "kami", "kamu", "lu", "gue", "dia", "mereka",
   "jadi", "terus", "lalu", "kemudian", "nah", "oke", "karena", "sebab", "biar",
   "dengan", "dalam", "sebagai", "adalah", "ialah", "akan", "sudah", "udah", "belum",
   "bisa", "nggak", "tidak", "ga", "gak", "pun", "kok", "juga", "aja", "lagi"]

/-! ### `_emotional_signal_score` -/

def fearUrgency : List String :=
  ["takut", "khawatir", "cemas", "panik", "bahaya", "ancam", "darurat", "segera",
   "urgent", "krusial", "parah", "fatal", "berisiko", "resiko", "hancur"]

def successRelief : List String :=
  ["berhasil", "sukses", "menang", "naik", "tembus", "lega", "akhirnya", "tenang", "selamat"]

def failureFrustration : List String :=
  ["gagal", "kecewa", "frustrasi", "capek", "lelah", "stress", "stres", "marah",
   "kesal", "kacau", "susah", "sulit", "berantakan", "nyesel", "menyerah"]

def emotionalSignalScore (text : String) : Int × List String :=
  let words := pyTokenize text
  if words.isEmpty then (0, [])
  else
    let (score1, reasons1) :=
      if words.any (fun w => fearUrgency.contains w) then
        ((2 : Int), ["Sinyal urgensi/risiko"]) else (0, [])
    let (score2, reasons2) :=
      if words.any (fun w => successRelief.contains w) then
        (score1 + 1, reasons1 ++ ["Sinyal sukses/lega"]) else (score1, reasons1)
    let (score3, reasons3) :=
      if words.any (fun w => failureFrustration.contains w) then
        (score2 + 1, reasons2 ++ ["Sinyal gagal/frustrasi"]) else (score2, reasons2)
    if containsSub text "!" then (score3 + 1, reasons3 ++ ["Penekanan emosional"])
    else (score3, reasons3)

/-! ### `_is_punchline` -/

def strongOpeners : List String :=
  ["masalahnya", "kenyataannya", "faktanya", "intinya", "kuncinya",
   "sebenarnya", "artinya", "poinnya", "kesalahannya", "solusinya"]

def absoluteLanguage : List String :=
  ["selalu", "kebanyakan", "semua", "pasti", "cuma", "hanya", "satu-satunya",
   "never", "nggak", "tidak", "gak", "ga", "bukan", "tanpa"]

def polarPhrases : List String :=
  ["tidak pernah", "nggak pernah", "gak pernah", "gak ada", "tidak ada"]

def punchVerbs : List String :=
  ["harus", "wajib", "jangan", "berhenti", "fokus", "ingat", "pastikan", "hindari"]

def boolInt (b : Bool) : Int := if b then 1 else 0

def isPunchline (text : String) : Bool :=
  let t := pyLower (pyStrip text)
  if t == "" then false
  else
    let words := pyTokenize t
    let n := words.length
    if n < 6 || 18 < n then false
    else
      let has_opener := pyStartsWithAny t strongOpeners
      let has_absolute := words.any (fun w => absoluteLanguage.contains w) ||
        polarPhrases.any (fun p => containsSub t p)
      let has_take := words.any (fun w => punchVerbs.contains w)
      let has_emotion := 0 < (emotionalSignalScore t).1
      let signal_count :=
        boolInt has_opener + boolInt has_absolute + boolInt has_take + boolInt has_emotion
      decide (2 ≤ signal_count) ||
        (decide (1 ≤ signal_count) && decide (6 ≤ n) && decide (n ≤ 12))

/-! ### `_quantile`, `_adaptive_peak_threshold` -/

def insertAsc (x : Int) : List Int → List Int
  | [] => [x]
  | y :: ys => if x ≤ y then x :: y :: ys else y :: insertAsc x ys

/-- Python `sorted` for a list of ints (ascending). -/
def sortIntsAsc (l : List Int) : List Int := l.foldr insertAsc []

def quantile (values : List Int) (qv : Q) : Q :=
  match values with
  | [] => 0
  | _ =>
    let xs := sortIntsAsc values
    if xs.length == 1 then Q.ofInt (xs.headD 0)
    else
      let qv := Q.pymax 0 (Q.pymin 1 qv)
      let pos := Q.ofInt ((xs.length : Int) - 1) * qv
      let lo := pos.floor.toNat
      let hi := Nat.min (xs.length - 1) (lo + 1)
      let frac := pos - Q.ofInt pos.floor
      Q.ofInt (xs.getD lo 0) * (1 - frac) + Q.ofInt (xs.getD hi 0) * frac

def adaptivePeakThreshold (seg_scores : List Int) : Int :=
  match seg_scores with
  | [] => 2
  | _ =>
    let p75 := quantile seg_scores ((75 : Q) / 100)
    let p50 := quantile seg_scores ((50 : Q) / 100)
    let thr := pyRound (Q.pymax 2 (Q.pymin 6 p75))
    if p75 - p50 < 1 then max 2 (thr - 1) else thr

/-! ### `_compress_reasons` -/

def reasonPriority : List String :=
  ["Punchline berkualitas", "Punchline", "Hook di awal (ideal)",
   "Pernyataan deklaratif kuat", "Nada instruktif/tegas",
   "Mengandung kata kunci editorial", "Meaning density tinggi",
   "Sinyal urgensi/risiko", "Sinyal gagal/frustrasi", "Sinyal sukses/lega",
   "Awalan penekanan", "Claim+justifikasi", "Durasi optimal"]

/-- Strip, drop empties, deduplicate by lowercase key keeping first occurrences. -/
def dedupeReasons (reasons : List String) : List String :=
  (reasons.foldl
    (fun (acc : List String × List String) r =>
      let r := pyStrip r
      if r == "" then acc
      else
        let key := pyLower r
        if acc.1.contains key then acc else (acc.1 ++ [key], acc.2 ++ [r]))
    ([], [])).2

def pickByPriority (deduped : List String) (limit : Nat) (picked : List String) :
    List String → List String
  | [] => picked
  | p :: ps =>
    let picked := deduped.foldl
      (fun acc r =>
        if (r == p || pyStartsWith r p) && !acc.contains r && acc.length < limit then
          acc ++ [r]
        else acc)
      picked
    if limit ≤ picked.length then picked else pickByPriority deduped limit picked ps

def compressReasons (reasons : List String) (limit : Nat) : List String :=
  match reasons with
  | [] => []
  | _ =>
    let deduped := dedupeReasons reasons
    let picked := pickByPriority deduped limit [] reasonPriority
    if limit ≤ picked.length then picked
    else
      deduped.foldl
        (fun acc r => if acc.length < limit && !acc.contains r then acc ++ [r] else acc)
        picked

/-! ### `_is_hanging_start`, `_is_incomplete_end` -/

def hangingStarts : List String :=
  ["jadi", "karena", "kalau", "terus", "lalu", "kemudian",
   "makanya", "soalnya", "tapi", "namun", "atau", "dan",
   "sebab", "maka", "sehingga", "nah", "oke"]

def isHangingStart (text : String) : Bool :=
  if text == "" then true
  else pyStartsWithAny (pyLower (pyStrip text)) hangingStarts

def incompleteEndings : List String :=
  ["karena", "kalau", "jadi", "makanya", "yaitu", "seperti",
   "yaitu", "adalah", "itu", "ini", "artinya", "berarti"]

def questionEndMarkers : List String := ["hah", "pertanyaannya", "kenapa", "bagaimana"]

def isIncompleteEnd (text : String) : Bool :=
  if text == "" then true
  else
    let text_lower := pyLower (pyStrip text)
    if questionEndMarkers.any (fun qm => pyEndsWith text_lower qm) then true
    else if containsSub text "?" then true
    else
      let words := pyTokenize text_lower
      match words.getLast? with
      | none => true
      | some lastWord => incompleteEndings.contains lastWord

/-! ### `_is_educational_content` -/

def eduUnits : List String :=
  ["gram", "kilogram", "kg", "liter", "meter", "km", "cm",
   "persen", "percent", "%", "kali", "bagi", "dikali", "dibagi",
   "ribu", "juta", "miliar", "rupiah", "dollar"]

/-- The `reasoning_phrases` regex list of `_is_educational_content`. -/
def eduReasoningPatterns : List RE :=
  [reSeq [RE.bnd, reWord "kalau", wsPlus, RE.plusCls isDotChar, wsPlus, reWord "maka", RE.bnd],
   reSeq [RE.bnd, reWord "jika", wsPlus, RE.plusCls isDotChar, wsPlus, reWord "maka", RE.bnd],
   reBWord "artinya",
   reBWord "berarti",
   reSeq [RE.bnd, reWord "setara", wsPlus, reWord "dengan", RE.bnd],
   reSeq [RE.bnd, reWord "sama", wsPlus, reWord "dengan", RE.bnd]]

def isEducationalContent (text : String) : Bool :=
  if text == "" then false
  else
    let text_lower := pyLower (pyStrip text)
    let words := pyTokenize text_lower
    let has_numbers := hasDigit text
    let has_units := eduUnits.any (fun u => words.contains u)
    let has_reasoning := eduReasoningPatterns.any (fun p => REsearch p text_lower)
    (has_numbers && has_units) || (has_numbers && has_reasoning)

/-! ### `_check_informational_completeness` -/

def premiseMarkers : List String :=
  ["kalau", "jika", "misalnya", "contoh", "kita", "ada", "punya",
   "awalnya", "pertama", "mulai"]

def transformationMarkers : List String :=
  ["kali", "bagi", "dikali", "dibagi", "tambah", "kurang",
   "artinya", "berarti", "jadi", "setara", "sama"]

def conclusionMarkers : List String :=
  ["jadi", "hasilnya", "kesimpulannya", "artinya", "berarti",
   "itulah", "makanya", "sehingga", "maka"]

/-- The `conclusion_patterns` regex list. -/
def conclusionPatterns : List RE :=
  [reSeq [RE.bnd, reWord "jadi", wsPlus, RE.plusCls isDotChar, wsPlus,
          RE.alt (reWord "adalah") (reWord "itu"), RE.bnd],
   reSeq [RE.bnd, reWord "artinya", wsPlus, RE.plusCls isDotChar, RE.bnd],
   reSeq [RE.bnd, reWord "berarti", wsPlus, RE.plusCls isDotChar, RE.bnd]]

def checkInformationalCompleteness (window_segments : List String) : Bool × String :=
  match window_segments with
  | [] => (false, "Empty window")
  | _ =>
    let combined_text := pyLower (joinWith " " window_segments)
    let is_edu := isEducationalContent combined_text
    if is_edu then
      let has_transformation :=
        transformationMarkers.any (fun w => (pyTokenize combined_text).contains w)
      let has_conclusion :=
        conclusionMarkers.any (fun w => (pyTokenize combined_text).contains w) ||
        conclusionPatterns.any (fun p => REsearch p combined_text)
      if !has_transformation then (false, "Educational content lacks transformation/reasoning")
      else if !has_conclusion then (false, "Educational content lacks conclusion")
      else
        -- Additional check: don't end on a question
        if pyEndsWith (pyStrip combined_text) "?" || containsSub combined_text "hah?" then
          let st := window_segments.foldl
            (fun (st : Bool × Nat) seg =>
              if containsSub seg "?" || containsSub (pyLower seg) "hah" then (true, st.2)
              else if st.1 then (st.1, st.2 + 1) else st)
            (false, 0)
          if st.1 && st.2 < 1 then (false, "Question without answer")
          else (true, "Complete information")
        else (true, "Complete information")
    else
      if isIncompleteEnd combined_text then (false, "Incomplete ending")
      else if window_segments.length < 2 then (false, "Single segment insufficient")
      else (true, "Complete information")

/-! ### `_calculate_core_editorial_pass` -/

/-- Reasoning-marker word set shared by the educational bonus in
`_score_text` and `_calculate_core_editorial_pass`. -/
def eduScoreReasoningMarkers : List String :=
  ["artinya", "berarti", "jadi", "makanya", "hasilnya", "itulah", "begitulah"]

/-- The `declarative_patterns` regex list of `_calculate_core_editorial_pass`. -/
def corePassDeclarativePatterns : List RE :=
  [reSeq [RE.bnd, reWord "kunci", RE.opt (reWord "nya"), wsPlus,
          RE.opt (reSeq [reWord "itu", wsPlus]), reWord "adalah", RE.bnd],
   reSeq [RE.bnd, reWord "intinya", wsPlus, RE.opt (reSeq [reWord "itu", wsPlus]), RE.bnd],
   reSeq [RE.bnd, reWord "artinya", wsPlus, RE.bnd],
   reSeq [RE.bnd, reWord "fakta", RE.opt (reWord "nya"), wsPlus,
          RE.opt (reSeq [reWord "itu", wsPlus]), RE.bnd],
   reSeq [RE.bnd, reWord "kenyataan", RE.opt (reWord "nya"), wsPlus,
          RE.opt (reSeq [reWord "itu", wsPlus]), RE.bnd],
   reSeq [RE.bnd, reWord "masalah", RE.opt (reWord "nya"), wsPlus,
          RE.opt (reSeq [reWord "itu", wsPlus]), reWord "adalah", RE.bnd],
   reSeq [RE.bnd, reWord "solusi", RE.opt (reWord "nya"), wsPlus,
          RE.opt (reSeq [reWord "itu", wsPlus]), RE.bnd],
   reSeq [RE.bnd, reWord "rahasia", RE.opt (reWord "nya"), wsPlus,
          RE.plusCls isWordChar, wsPlus, RE.alt (reWord "itu") (reWord "adalah"), RE.bnd],
   reSeq [RE.bnd, reWord "sebenarnya", wsPlus, RE.plusCls isWordChar, wsPlus,
          RE.alt (reWord "itu") (reWord "adalah"), RE.bnd]]

def imperativeMarkers : List String :=
  ["harus", "wajib", "jangan", "pastikan", "ingat", "fokus", "hindari"]

def coreOpeners : List String :=
  ["masalahnya", "kuncinya", "intinya", "sebenarnya", "faktanya", "kenyataannya", "solusinya"]

def corePassKeywords : List String :=
  ["penting", "kunci", "kuncinya", "masalah", "solusi", "kesalahan",
   "intinya", "sebenarnya", "faktanya", "kenyataannya", "rahasia"]

def calculateCoreEditorialPass (text : String) : Bool × Int :=
  let words := pyTokenize text
  if words.isEmpty then (false, 0)
  else
    let core0 : Int := 0
    -- 0. Educational content check
    let core1 :=
      if isEducationalContent text then
        let has_reasoning := words.any (fun w => eduScoreReasoningMarkers.contains w)
        if has_reasoning && 10 ≤ words.length then core0 + 5
        else if 8 ≤ words.length then core0 + 3
        else core0
      else core0
    -- 1. Declarative claim check
    let is_declarative :=
      corePassDeclarativePatterns.any (fun p => REsearch p (pyLower text))
    let core2 := if is_declarative then core1 + 4 else core1
    -- 2. Assertive/instructional check
    let core3 := if words.any (fun w => imperativeMarkers.contains w) then core2 + 3 else core2
    -- 3. Core opener check
    let text_lower := pyLower text
    let has_opener := coreOpeners.any (fun op => pyStartsWith text_lower op)
    let core4 := if has_opener then core3 + 3 else core3
    -- 4. Core keywords check (general)
    let core5 := if words.any (fun w => corePassKeywords.contains w) then core4 + 2 else core4
    -- 5. Punchline check
    let core6 := if isPunchline text then core5 + 3 else core5
    -- 6. Meaning density check
    let content_words := words.filter (fun w => !fillerWords.contains w && !stopWords.contains w)
    let content_ratio : Q := Q.ofInt content_words.length / Q.ofInt words.length
    let core7 :=
      if (55 : Q) / 100 ≤ content_ratio && 5 ≤ content_words.length then core6 + 2 else core6
    (decide (3 ≤ core7), core7)

/-! ### `_classify` -/

def classifyWarningSignals : List String :=
  ["bahaya", "risiko", "resiko", "ancaman", "masalah", "kesalahan",
   "salah", "fatal", "hancur", "rugi", "gagal", "kacau", "berantakan"]

def cautionPatterns : List RE :=
  [reSeq [RE.bnd, reWord "hati", RE.opt (reWord "-"), reWord "hati", RE.bnd],
   reSeq [RE.bnd, reWord "kalau", wsPlus,
          RE.alt (reWord "tidak") (RE.alt (reWord "nggak") (reWord "gak")), RE.bnd],
   reSeq [RE.bnd, reWord "jangan", wsPlus, reWord "sampai", RE.bnd]]

def lessonPatterns : List RE :=
  [reSeq [RE.bnd, reWord "saya", wsPlus,
          RE.alt (reWord "belajar") (RE.alt (reWord "dapat") (reWord "dapet")), RE.bnd],
   reSeq [RE.bnd, reWord "pengalaman", wsPlus, reWord "saya", RE.bnd],
   reSeq [RE.bnd, reWord "dulu", wsPlus, reWord "saya", RE.bnd],
   reSeq [RE.bnd, reWord "waktu", wsPlus, RE.opt (reSeq [reWord "itu", wsPlus]),
          reWord "saya", RE.bnd],
   reSeq [RE.bnd, reWord "pelajaran", RE.opt (reWord "nya"), RE.bnd]]

def pastTenseWords : List String := ["dulu", "waktu", "pengalaman", "pelajaran", "ternyata"]

def firstPersonLesson : List String := ["saya", "aku", "gue", "kita"]

def insightSignals : List String :=
  ["kunci", "kuncinya", "intinya", "sebenarnya", "faktanya",
   "kenyataannya", "artinya", "poinnya", "alasannya"]

def insightPatterns : List RE :=
  [reSeq [RE.bnd, reWord "yang", wsPlus, reWord "penting", RE.bnd],
   reSeq [RE.bnd, reWord "yang", wsPlus, reWord "perlu", RE.bnd],
   reSeq [RE.bnd, reWord "masalah", wsPlus, reWord "utama", RE.bnd]]

def motivationalSignals : List String :=
  ["semangat", "percaya", "yakin", "pasti", "bisa", "sukses",
   "berhasil", "terus", "lanjut", "jangan", "menyerah"]

def motivationalPatterns : List RE :=
  [reSeq [RE.bnd, reWord "kamu", wsPlus, reWord "bisa", RE.bnd],
   reSeq [RE.bnd, reWord "pasti", wsPlus, reWord "bisa", RE.bnd],
   reSeq [RE.bnd, reWord "jangan", wsPlus, reWord "menyerah", RE.bnd]]

def classifyImperative : List String :=
  ["harus", "wajib", "jangan", "pastikan", "ingat", "fokus", "hindari", "lakukan"]

/-- Count how many words from `signals` occur among the tokens (the Python
`len(w & signals)` where `w` is the token set). -/
def setInterCount (tokens signals : List String) : Nat :=
  (signals.filter (fun s => tokens.contains s)).length

def classify (text : String) : String :=
  let t := pyLower (pyStrip text)
  let w := pyTokenize t
  if isEducationalContent t then "educational"
  else if w.any (fun x => classifyImperative.contains x) then "hard_advice"
  else if w.any (fun x => classifyWarningSignals.contains x) ||
          cautionPatterns.any (fun p => REsearch p t) then "warning"
  else if lessonPatterns.any (fun p => REsearch p t) ||
          (w.any (fun x => pastTenseWords.contains x) &&
           0 < setInterCount w firstPersonLesson) then "lesson_learned"
  else if w.any (fun x => insightSignals.contains x) ||
          insightPatterns.any (fun p => REsearch p t) then "insight"
  else if 2 ≤ setInterCount w motivationalSignals ||
          motivationalPatterns.any (fun p => REsearch p t) then "motivational"
  else "insight"

/-! ### `_score_text` -/

/-- The `declarative_patterns` regex list of `_score_text` (it differs from
the one in `_calculate_core_editorial_pass`). -/
def scoreDeclarativePatterns : List RE :=
  [reSeq [RE.bnd, reWord "kunci", RE.opt (reWord "nya"), wsPlus,
          RE.opt (reSeq [reWord "itu", wsPlus]), reWord "adalah", RE.bnd],
   reSeq [RE.bnd, reWord "intinya", wsPlus, RE.opt (reSeq [reWord "itu", wsPlus]), RE.bnd],
   reSeq [RE.bnd, reWord "artinya", wsPlus, RE.bnd],
   reSeq [RE.bnd, reWord "yang", wsPlus, reWord "terjadi", wsPlus,
          RE.opt (reSeq [reWord "itu", wsPlus]), reWord "adalah", RE.bnd],
   reSeq [RE.bnd, reWord "poin", RE.opt (reWord "nya"), wsPlus,
          RE.opt (reSeq [reWord "itu", wsPlus]), RE.bnd],
   reSeq [RE.bnd, reWord "pelajaran", RE.opt (reWord "nya"), wsPlus,
          RE.opt (reSeq [reWord "itu", wsPlus]), RE.bnd],
   reSeq [RE.bnd, reWord "masalah", wsPlus, reWord "utamanya", wsPlus,
          RE.opt (reSeq [reWord "itu", wsPlus]), RE.bnd],
   reSeq [RE.bnd, reWord "solusi", RE.opt (reWord "nya"), wsPlus,
          RE.opt (reSeq [reWord "itu", wsPlus]), RE.bnd],
   reSeq [RE.bnd, reWord "fakta", RE.opt (reWord "nya"), wsPlus,
          RE.opt (reSeq [reWord "itu", wsPlus]), RE.bnd],
   reSeq [RE.bnd, reWord "kenyataan", RE.opt (reWord "nya"), wsPlus,
          RE.opt (reSeq [reWord "itu", wsPlus]), RE.bnd]]

def scoreCoreKeywords : List String :=
  ["penting", "kunci", "kuncinya", "masalah", "solusi", "kesalahan",
   "intinya", "sebenarnya", "faktanya", "kenyataannya", "artinya"]

def scoreImperativeMarkers : List String :=
  ["harus", "wajib", "jangan", "pastikan", "ingat", "fokus", "hindari"]

def emphasisStarts : List String :=
  ["jadi", "intinya", "yang paling", "ingat", "sebenarnya", "singkatnya",
   "poin", "kunci", "masalahnya"]

def firstPersonWords : List String := ["saya", "aku", "kita", "kami", "gue"]

def claimWords : List String :=
  ["kunci", "penting", "masalah", "solusi", "harus", "jangan", "intinya"]

def supportWords : List String :=
  ["karena", "sebab", "soalnya", "makanya", "jadi", "biar", "supaya"]

def questionStarts : List String :=
  ["apa", "mengapa", "kenapa", "bagaimana", "kapan", "dimana", "berapa"]

def answerMarkers : List String :=
  ["karena", "jawabannya", "ternyata", "sebenarnya", "faktanya"]

def storytellingMarkers : List String :=
  ["waktu", "dulu", "pas", "kemarin", "terus", "lalu", "kemudian", "abis", "habis"]

def score_text (text : String) : Int × List String :=
  let words := pyTokenize text
  let n := words.length
  let is_punch := isPunchline text
  -- DOMAIN 1: core editorial score
  let is_declarative := scoreDeclarativePatterns.any (fun p => REsearch p (pyLower text))
  let (core1, reasons1) :=
    if is_declarative then ((4 : Int), ["Pernyataan deklaratif kuat"]) else (0, [])
  let (core2, reasons2) :=
    if words.any (fun w => scoreCoreKeywords.contains w) then
      (core1 + 3, reasons1 ++ ["Mengandung kata kunci editorial"])
    else (core1, reasons1)
  let (core3, reasons3) :=
    if words.any (fun w => scoreImperativeMarkers.contains w) then
      (core2 + 3, reasons2 ++ ["Nada instruktif/tegas"])
    else (core2, reasons2)
  let (core4, reasons4) :=
    if is_punch then (core3 + 3, reasons3 ++ ["Punchline berkualitas"]) else (core3, reasons3)
  let (core5, reasons5) :=
    if isEducationalContent text then
      let has_reasoning := words.any (fun w => eduScoreReasoningMarkers.contains w)
      if has_reasoning && 15 ≤ n then (core4 + 5, reasons4 ++ ["Konten edukasi lengkap"])
      else if 10 ≤ n then (core4 + 3, reasons4 ++ ["Konten edukasi"])
      else (core4, reasons4)
    else (core4, reasons4)
  let content_words := words.filter (fun w => !fillerWords.contains w && !stopWords.contains w)
  let (core6, reasons6) :=
    if !words.isEmpty &&
       (55 : Q) / 100 ≤ Q.ofInt content_words.length / Q.ofInt words.length &&
       5 ≤ content_words.length then
      (core5 + 2, reasons5 ++ ["Meaning density tinggi"])
    else (core5, reasons5)
  -- DOMAIN 2: support score
  let (em_score, em_reasons) := emotionalSignalScore text
  let (support1, reasons7) :=
    if 0 < em_score then (min em_score 2, reasons6 ++ em_reasons.take 1) else (0, reasons6)
  let (support2, reasons8) :=
    if emphasisStarts.any (fun p => pyStartsWith (pyLower (pyStrip text)) p) then
      (support1 + 1, reasons7 ++ ["Awalan penekanan"])
    else (support1, reasons7)
  let (support3, reasons9) :=
    if words.any (fun w => firstPersonWords.contains w) then
      (support2 + 1, reasons8 ++ ["Insight orang pertama"])
    else (support2, reasons8)
  let has_claim := words.any (fun w => claimWords.contains w)
  let has_support := words.any (fun w => supportWords.contains w)
  let (support4, reasons10) :=
    if has_claim && has_support then (support3 + 1, reasons9 ++ ["Claim+justifikasi"])
    else (support3, reasons9)
  -- DOMAIN 3: penalty score
  let (penalty1, reasons11) :=
    if !words.isEmpty then
      let filler_count := (words.filter (fun w => fillerWords.contains w)).length
      let filler_ratio : Q := Q.ofInt filler_count / Q.ofInt words.length
      if (40 : Q) / 100 ≤ filler_ratio then ((-4 : Int), reasons10 ++ ["Terlalu banyak filler"])
      else if (30 : Q) / 100 ≤ filler_ratio then (-2, reasons10 ++ ["Cukup banyak filler"])
      else (0, reasons10)
    else (0, reasons10)
  let lowered := pyLower (pyStrip text)
  let is_question :=
    containsSub text "?" || questionStarts.any (fun qm => pyStartsWith lowered qm)
  let (penalty2, reasons12) :=
    if is_question && !(words.any (fun w => answerMarkers.contains w)) then
      (penalty1 - 3, reasons11 ++ ["Pertanyaan tanpa jawaban"])
    else (penalty1, reasons11)
  let has_story := words.any (fun w => storytellingMarkers.contains w)
  let (penalty3, reasons13) :=
    if has_story && !has_claim && !is_declarative && 8 ≤ n then
      (penalty2 - 3, reasons12 ++ ["Storytelling tanpa takeaway"])
    else (penalty2, reasons12)
  let (penalty4, reasons14) :=
    if !is_punch then
      if n < 5 then (penalty3 - 3, reasons13 ++ ["Terlalu pendek"])
      else if 30 < n then (penalty3 - 2, reasons13 ++ ["Terlalu panjang"])
      else (penalty3, reasons13)
    else (penalty3, reasons13)
  let (penalty5, reasons15) :=
    if !words.isEmpty then
      let stop_count := (words.filter (fun w => stopWords.contains w)).length
      if (70 : Q) / 100 ≤ Q.ofInt stop_count / Q.ofInt words.length && core6 ≤ 2 then
        (penalty4 - 2, reasons14 ++ ["Terlalu banyak stopword"])
      else (penalty4, reasons14)
    else (penalty4, reasons14)
  (core6 + support4 + penalty5, compressReasons reasons15 3)

/-! ### `_insight_components`, `_has_insight_structure` -/

def reasonMarkers : List String :=
  ["karena", "sebab", "artinya", "berarti", "jadi", "makanya"]

def implicationMarkers : List String :=
  ["hasilnya", "pelajarannya", "dampaknya", "sehingga", "maka"]

def insightComponents (text : String) : Bool × Bool × Bool :=
  let t := pyStrip text
  if t == "" then (false, false, false)
  else
    let t_lower := pyLower t
    let cp := calculateCoreEditorialPass t
    let claim_present := isPunchline t || cp.1 || decide (4 ≤ cp.2)
    let reason_present := reasonMarkers.any (fun m => REsearch (reBWord m) t_lower)
    let implication_present := implicationMarkers.any (fun m => REsearch (reBWord m) t_lower)
    (claim_present, reason_present, implication_present)

def hasInsightStructure (text : String) : Bool × List String :=
  let (claim_present, reason_present, implication_present) := insightComponents text
  let components := boolInt claim_present + boolInt reason_present + boolInt implication_present
  let passes := decide (2 ≤ components)
  if claim_present && reason_present && implication_present then
    (true, ["Insight lengkap (claim, alasan, dampak)"])
  else
    let reasons :=
      if claim_present && reason_present then ["Claim + reasoning jelas"]
      else if claim_present && implication_present then ["Claim dengan implikasi kuat"]
      else if reason_present && implication_present then ["Alasan + dampak (tanpa claim eksplisit)"]
      else if claim_present then ["Punchline tanpa alasan/dampak"]
      else if reason_present then ["Alasan tanpa claim/dampak"]
      else if implication_present then ["Dampak tanpa claim/alasan"]
      else ["Tidak ada struktur insight"]
    (passes, reasons)

/-! ### `_detect_educational_sequences` -/

def eduSeqContinueMarkers : List String := ["jadi", "artinya", "berarti", "hasilnya", "itulah"]

/-- The inner `while j < n and j < i + 8` collection loop; the fuel `8`
dominates its iteration count exactly. -/
def eduSeqCollect (ts : List Seg) (n i : Nat) :
    Nat → Nat → List String → (List String × Nat)
  | 0, j, acc => (acc, j)
  | fuel + 1, j, acc =>
    if j < n && j < i + 8 then
      let next_text := segText ts j
      let is_edu := isEducationalContent next_text
      let has_reasoning :=
        eduSeqContinueMarkers.any (fun m => containsSub (pyLower next_text) m)
      let is_short_connector := (pyTokenize next_text).length < 5
      if is_edu || has_reasoning || is_short_connector then
        eduSeqCollect ts n i fuel (j + 1) (acc ++ [next_text])
      else (acc, j)
    else (acc, j)

/-- The outer `while i < n` loop; `i` strictly increases every iteration, so
fuel `n + 1` dominates the iteration count. -/
def eduSeqLoop (ts : List Seg) (n minLength : Nat) :
    Nat → Nat → List Nat → List Nat
  | 0, _, acc => acc
  | fuel + 1, i, acc =>
    if i < n then
      let seg_text := segText ts i
      if isEducationalContent seg_text then
        let (texts, j) := eduSeqCollect ts n i 8 (i + 1) [seg_text]
        if minLength ≤ texts.length && (checkInformationalCompleteness texts).1 then
          eduSeqLoop ts n minLength fuel j (acc ++ [i])
        else eduSeqLoop ts n minLength fuel (i + 1) acc
      else eduSeqLoop ts n minLength fuel (i + 1) acc
    else acc

def detectEducationalSequences (ts : List Seg) (minLength : Nat) : List Nat :=
  if ts.length < minLength then []
  else eduSeqLoop ts ts.length minLength (ts.length + 1) 0 []

/-! ### `_dynamic_window_profile` -/

/-- The `WindowSpec` record built by `_dynamic_window_profile`. -/
structure WinProf where
  min_duration : Q
  max_duration : Q
  pre_roll : Q
  post_roll : Q
  max_pre_context : Q
  max_post_context : Q

/-- The per-category learning adjustment block of `_dynamic_window_profile`
(textually repeated per category in the source; identical up to the
`max(...)` floors for the two context bounds). -/
def applyLearnAdjust (prof : WinProf) (category_key : String)
    (lp : Option EditorialLearningProfile) (preFloor postFloor : Q) :
    WinProf × List String :=
  match lp with
  | none => (prof, [])
  | some l =>
    if !l.is_zero then
      let dmin := (alookup l.min_duration_delta_by_category category_key).getD 0
      let dmax := (alookup l.max_duration_delta_by_category category_key).getD 0
      let dpre := (alookup l.max_pre_context_delta_by_category category_key).getD 0
      let dpost := (alookup l.max_post_context_delta_by_category category_key).getD 0
      let (prof, rs) :=
        if 0 < dmin then
          ({ prof with min_duration := Q.pymin prof.max_duration (prof.min_duration + dmin) },
           ["Sesuai preferensi durasi pengguna"])
        else (prof, [])
      let (prof, rs) :=
        if dmax < 0 then
          ({ prof with max_duration := Q.pymax prof.min_duration (prof.max_duration + dmax) },
           rs ++ ["Sesuai preferensi durasi pengguna"])
        else (prof, rs)
      let (prof, rs) :=
        -- `if dpre != 0`: exact comparison against 0.0
        if dpre.num ≠ 0 then
          ({ prof with max_pre_context := Q.pymax preFloor (prof.max_pre_context + dpre) },
           rs ++ ["Disesuaikan dari feedback pengguna"])
        else (prof, rs)
      let (prof, rs) :=
        if dpost.num ≠ 0 then
          ({ prof with max_post_context := Q.pymax postFloor (prof.max_post_context + dpost) },
           rs ++ ["Disesuaikan dari feedback pengguna"])
        else (prof, rs)
      (prof, rs)
    else (prof, [])

def dynamicWindowProfile (anchor_text : String)
    (lp : Option EditorialLearningProfile) : WinProf × List String :=
  if isPunchline anchor_text then
    let prof : WinProf := ⟨8, 18, (5 : Q) / 10, 1, 4, 6⟩
    let (prof, rs) := applyLearnAdjust prof "punchline" lp 1 3
    (prof, compressReasons rs 2)
  else
    let cat := classify anchor_text
    if cat == "educational" then
      let prof : WinProf := ⟨18, 35, (8 : Q) / 10, 1, 12, 20⟩
      let (prof, rs) := applyLearnAdjust prof "educational" lp 3 8
      (prof, compressReasons rs 2)
    else if cat == "hard_advice" then
      let prof : WinProf := ⟨12, 25, (5 : Q) / 10, 1, 5, 10⟩
      let (prof, rs) := applyLearnAdjust prof "hard_advice" lp 1 6
      (prof, compressReasons rs 2)
    else if cat == "warning" then
      let prof : WinProf := ⟨15, 30, (5 : Q) / 10, 1, 8, 15⟩
      let (prof, rs) := applyLearnAdjust prof "warning" lp 2 8
      (prof, compressReasons rs 2)
    else if cat == "lesson_learned" then
      let prof : WinProf := ⟨15, 35, (8 : Q) / 10, 1, 10, 18⟩
      let (prof, rs) := applyLearnAdjust prof "lesson_learned" lp 3 10
      (prof, compressReasons rs 2)
    else if cat == "motivational" then
      let prof : WinProf := ⟨12, 25, (5 : Q) / 10, 1, 5, 12⟩
      let (prof, rs) := applyLearnAdjust prof "motivational" lp 1 6
      (prof, compressReasons rs 2)
    else
      -- Default: insight
      let prof : WinProf := ⟨12, 30, (5 : Q) / 10, 1, 8, 15⟩
      let (prof, rs) := applyLearnAdjust prof cat lp 2 8
      (prof, compressReasons rs 2)

/-! ### `_hook_position_score`, `_overlap_ratio` -/

def hookPositionScore (anchor_index window_left window_right : Nat)
    (opening_strictness : Int) : Int × Option String :=
  if window_right ≤ window_left then (0, none)
  else
    let window_span : Int := (window_right : Int) - (window_left : Int) + 1
    let anchor_position : Int := (anchor_index : Int) - (window_left : Int)
    let position_ratio : Q := Q.ofInt anchor_position / Q.ofInt window_span
    let strict : Int := if 1 ≤ opening_strictness then 1 else 0
    let ideal_thr : Q := if strict == 1 then (20 : Q) / 100 else (25 : Q) / 100
    let good_thr : Q := if strict == 1 then (35 : Q) / 100 else (40 : Q) / 100
    let late_thr : Q := if strict == 1 then (55 : Q) / 100 else (60 : Q) / 100
    if position_ratio ≤ ideal_thr then
      ((if strict == 1 then 4 else 3), some "Hook di awal (ideal)")
    else if position_ratio ≤ good_thr then (1, some "Hook di early-mid")
    else if position_ratio ≤ late_thr then (0, none)
    else ((if strict == 1 then -3 else -2), some "Hook terlambat")

/-- `_overlap_ratio`: intersection over union of two time ranges. -/
def overlapIou (a_start a_end b_start b_end : Q) : Q :=
  let inter := Q.pymax 0 (Q.pymin a_end b_end - Q.pymax a_start b_start)
  let union := Q.pymax ((1 : Q) / 1000000000) ((a_end - a_start) + (b_end - b_start) - inter)
  inter / union

/-! ### `_build_window_around` -/

/-- Python `" ".join(str(transcript[i].get("text", "")) for i in range(l, r + 1))`. -/
def windowText (ts : List Seg) (l r : Nat) : String :=
  joinWith " " ((List.range' l (r + 1 - l)).map (fun i => segText ts i))

/-- `is_valuable_segment` (closure inside `_build_window_around`). -/
def isValuableSegment (ts : List Seg) (i : Nat) : Bool :=
  let seg_text := pyStrip (segText ts i)
  if seg_text == "" then false
  else if (calculateCoreEditorialPass seg_text).1 then true
  else
    let toks := pyTokenize seg_text
    if toks.isEmpty then false
    else
      Q.ofInt (toks.filter (fun w => fillerWords.contains w)).length / Q.ofInt toks.length <
        (30 : Q) / 100

def fillerStarts : List String :=
  ["jadi", "nah", "oke", "ok", "ya", "eee", "eh", "em", "hmm", "terus", "lalu"]

/-- `is_weak_lead` (closure inside `_build_window_around`). -/
def isWeakLead (ts : List Seg) (i : Nat) : Bool :=
  let seg_text := pyLower (pyStrip (segText ts i))
  if seg_text == "" then true
  else
    let cp := calculateCoreEditorialPass seg_text
    if cp.1 || decide (3 ≤ cp.2) then false
    else if isHangingStart seg_text then true
    else if pyStartsWithAny seg_text fillerStarts then true
    else
      let toks := pyTokenize seg_text
      if toks.length ≤ 2 then true
      else
        (35 : Q) / 100 ≤
          Q.ofInt (toks.filter (fun w => fillerWords.contains w)).length /
            Q.ofInt (max 1 toks.length : Nat)

def fillerEnds : List String :=
  ["ya", "yah", "kan", "dong", "deh", "sih", "gitu", "gini", "nih"]

/-- `is_weak_tail` (closure inside `_build_window_around`). -/
def isWeakTail (ts : List Seg) (i : Nat) : Bool :=
  let seg_text := pyLower (pyStrip (segText ts i))
  if seg_text == "" then true
  else
    let cp := calculateCoreEditorialPass seg_text
    if cp.1 || decide (3 ≤ cp.2) then false
    else
      let toks := pyTokenize seg_text
      if toks.length ≤ 2 then true
      else if (match toks.getLast? with
               | some w => fillerEnds.contains w
               | none => false) && toks.length ≤ 6 then true
      else
        (35 : Q) / 100 ≤
          Q.ofInt (toks.filter (fun w => fillerWords.contains w)).length /
            Q.ofInt (max 1 toks.length : Nat)

/-- Pass 1: right-first expansion to `min_duration`.  Each iteration moves a
boundary by one segment or exits, so fuel `n + 1` dominates the loop. -/
def bwExpandMin (ts : List Seg) (n : Nat)
    (min_duration max_pre_context max_post_context anchor_start anchor_end : Q) :
    Nat → Nat × Nat → Nat × Nat
  | 0, lr => lr
  | fuel + 1, (l, r) =>
    if segEndQ ts r - segStartQ ts l < min_duration then
      if (r < n - 1) ∧ (segEndQ ts (r + 1) - anchor_end ≤ max_post_context) then
        bwExpandMin ts n min_duration max_pre_context max_post_context
          anchor_start anchor_end fuel (l, r + 1)
      else if (0 < l) ∧ (anchor_start - segStartQ ts (l - 1) ≤ max_pre_context) then
        bwExpandMin ts n min_duration max_pre_context max_post_context
          anchor_start anchor_end fuel (l - 1, r)
      else (l, r)
    else (l, r)

/-- Pass 2: opportunistic expansion to `max_duration`; the fuel is the
source's `max_expansions` counter (4, or 6 for educational anchors). -/
def bwExpandMax (ts : List Seg) (n : Nat) (is_edu_anchor : Bool)
    (max_duration max_pre_context max_post_context anchor_start anchor_end : Q) :
    Nat → Nat × Nat → Nat × Nat
  | 0, lr => lr
  | fuel + 1, (l, r) =>
    if max_duration ≤ segEndQ ts r - segStartQ ts l then (l, r)
    else
      let window_text := windowText ts l r
      let is_edu_window := is_edu_anchor || isEducationalContent window_text
      if (r < n - 1) ∧ (segEndQ ts (r + 1) - anchor_end ≤ max_post_context) ∧
         (segEndQ ts (r + 1) - segStartQ ts l ≤ max_duration) ∧
         (is_edu_window || isValuableSegment ts (r + 1)) = true then
        bwExpandMax ts n is_edu_anchor max_duration max_pre_context max_post_context
          anchor_start anchor_end fuel (l, r + 1)
      else if (0 < l) ∧ (anchor_start - segStartQ ts (l - 1) ≤ max_pre_context) ∧
              (segEndQ ts r - segStartQ ts (l - 1) ≤ max_duration) ∧
              (is_edu_window || isValuableSegment ts (l - 1)) = true then
        bwExpandMax ts n is_edu_anchor max_duration max_pre_context max_post_context
          anchor_start anchor_end fuel (l - 1, r)
      else (l, r)

/-- Pass 3 inner loop: forced right expansion of a claim-only punchline
window until a reason/implication marker appears (`max_force_steps = 12`). -/
def bwPunchForce (ts : List Seg) (n : Nat) (max_duration : Q) (l : Nat) :
    Nat → Nat → Nat
  | 0, r => r
  | fuel + 1, r =>
    if r < n - 1 then
      if max_duration < segEndQ ts (r + 1) - segStartQ ts l then r
      else
        let r2 := r + 1
        let wt := windowText ts l r2
        let comps := insightComponents wt
        if comps.2.1 || comps.2.2 then r2
        else bwPunchForce ts n max_duration l fuel r2
    else r

/-- Pass 4: trim weak leads from the left while `min_duration` is kept. -/
def bwTrimLeft (ts : List Seg) (min_duration : Q) (r : Nat) :
    Nat → Nat → Nat
  | 0, l => l
  | fuel + 1, l =>
    if l < r ∧ isWeakLead ts l = true then
      if min_duration ≤ segEndQ ts r - segStartQ ts (l + 1) then
        bwTrimLeft ts min_duration r fuel (l + 1)
      else l
    else l

/-- Pass 5: trim weak tails from the right while `min_duration` is kept. -/
def bwTrimRight (ts : List Seg) (min_duration : Q) (l : Nat) :
    Nat → Nat → Nat
  | 0, r => r
  | fuel + 1, r =>
    if l < r ∧ isWeakTail ts r = true then
      if min_duration ≤ segEndQ ts (r - 1) - segStartQ ts l then
        bwTrimRight ts min_duration l fuel (r - 1)
      else r
    else r

/-- Pass 6 inner loop: hanging-start repair (`max_trim_attempts = 5`),
entered only when the whole window text opens with a hanging connector. -/
def bwHangRepair (ts : List Seg) (min_duration : Q) (r : Nat) :
    Nat → Nat → Nat
  | 0, l => l
  | fuel + 1, l =>
    if l < r then
      let next_window_text := windowText ts (l + 1) r
      let next_duration := segEndQ ts r - segStartQ ts (l + 1)
      let next_segments := r - (l + 1) + 1
      let can_skip := !isHangingStart next_window_text ||
        (decide (min_duration ≤ next_duration) && decide (2 ≤ next_segments))
      if can_skip then
        if !isHangingStart next_window_text then l + 1
        else bwHangRepair ts min_duration r fuel (l + 1)
      else l
    else l

def transitionalEndings : List String :=
  ["jadi", "artinya", "berarti", "makanya", "jadinya", "sehingga", "maka"]

def eduNextConclusionMarkers : List String :=
  ["itulah", "begitulah", "jadi", "kesimpulannya"]

/-- Pass 7: forced resolution extension (`max_extension_attempts = 8`). -/
def bwForceResolution (ts : List Seg) (n : Nat) (l : Nat)
    (max_duration max_post_context anchor_end : Q) :
    Nat → Nat → Nat
  | 0, r => r
  | fuel + 1, r =>
    if r < n - 1 then
      let window_end_text := segText ts r
      let end_lower := pyLower (pyStrip window_end_text)
      let needs1 := isIncompleteEnd window_end_text
      let needs2 := needs1 || containsSub window_end_text "?" ||
        containsSub end_lower "hah" || containsSub end_lower "pertanyaannya"
      let needs3 := needs2 || transitionalEndings.any (fun t => pyEndsWith end_lower t)
      let needs4 := needs3 ||
        (isEducationalContent window_end_text && hasDigit window_end_text &&
         -- the source re-checks `r < n - 1` here (already implied by the loop guard)
         decide (r < n - 1) &&
         eduNextConclusionMarkers.any
           (fun m => containsSub (pyLower (segText ts (r + 1))) m))
      if needs4 then
        let extended_post_context := max_post_context * ((15 : Q) / 10)
        if segEndQ ts (r + 1) - anchor_end ≤ extended_post_context then
          if segEndQ ts (r + 1) - segStartQ ts l ≤ max_duration + 5 then
            bwForceResolution ts n l max_duration max_post_context anchor_end fuel (r + 1)
          else r
        else r
      else r
    else r

/-- Pass 8 inner loop: educational 18-second floor (8 attempts, 20 s
post-context cap, 35 s duration cap — the source hardcodes the educational
profile here). -/
def bwEduFloor (ts : List Seg) (n : Nat) (l : Nat) (anchor_end : Q) :
    Nat → Nat → Nat
  | 0, r => r
  | fuel + 1, r =>
    if segEndQ ts r - segStartQ ts l < 18 ∧ r < n - 1 then
      if segEndQ ts (r + 1) - anchor_end ≤ 20 then
        if segEndQ ts (r + 1) - segStartQ ts l ≤ 35 then
          bwEduFloor ts n l anchor_end fuel (r + 1)
        else r
      else r
    else r

def eduLikelyUnits : List String :=
  ["juta", "ribu", "persen", "gram", "kilogram", "liter"]

/-- Pass 3 of `_build_window_around` as an index transformer: the punchline
insight-completion layer (right-only forced expansion). -/
def bwPass3 (ts : List Seg) (n : Nat) (max_duration : Q) (anchor_text : String)
    (lr : Nat × Nat) : Nat × Nat :=
  (lr.1,
   if isPunchline anchor_text then
     let comps := insightComponents (windowText ts lr.1 lr.2)
     if comps.1 && !(comps.2.1 || comps.2.2) then
       bwPunchForce ts n max_duration lr.1 12 lr.2
     else lr.2
   else lr.2)

/-- Pass 4 as an index transformer: trim weak leads from the left. -/
def bwPass4 (ts : List Seg) (min_duration : Q) (lr : Nat × Nat) : Nat × Nat :=
  (bwTrimLeft ts min_duration lr.2 (lr.2 + 1) lr.1, lr.2)

/-- Pass 5 as an index transformer: trim weak tails from the right. -/
def bwPass5 (ts : List Seg) (min_duration : Q) (lr : Nat × Nat) : Nat × Nat :=
  (lr.1, bwTrimRight ts min_duration lr.1 (lr.2 + 1) lr.2)

/-- Pass 6 as an index transformer: window-level hanging-start repair. -/
def bwPass6 (ts : List Seg) (min_duration : Q) (lr : Nat × Nat) : Nat × Nat :=
  ((if isHangingStart (windowText ts lr.1 lr.2) then
      bwHangRepair ts min_duration lr.2 5 lr.1
    else lr.1),
   lr.2)

/-- Pass 7 as an index transformer: forced resolution extension. -/
def bwPass7 (ts : List Seg) (n : Nat) (max_duration max_post_context anchor_end : Q)
    (lr : Nat × Nat) : Nat × Nat :=
  (lr.1, bwForceResolution ts n lr.1 max_duration max_post_context anchor_end 8 lr.2)

/-- Pass 8 as an index transformer: the educational 18-second hard floor. -/
def bwPass8 (ts : List Seg) (n : Nat) (anchor_end : Q) (lr : Nat × Nat) : Nat × Nat :=
  (lr.1,
   let window_text := windowText ts lr.1 lr.2
   let window_lower := pyLower window_text
   let is_or_likely_educational :=
     isEducationalContent window_text ||
     classify window_text == "educational" ||
     containsSub window_lower "berapa" ||
     containsSub window_lower "hitung" ||
     (containsSub window_lower "kalau" &&
      (containsSub window_lower "maka" || containsSub window_lower "jadi")) ||
     (containsSub window_text "1" &&
      eduLikelyUnits.any (fun u => containsSub window_lower u))
   if is_or_likely_educational then bwEduFloor ts n lr.1 anchor_end 8 lr.2 else lr.2)

/-- The index-computing part of `_build_window_around` (everything before the
final timestamp lines), returning the `(left_index, right_index)` pair: the
source's passes applied in order around the clamped anchor. -/
def bwCore (ts : List Seg) (center_index : Nat)
    (min_duration max_duration max_pre_context max_post_context : Q) :
    Nat × Nat :=
  let n := ts.length
  let center := min (n - 1) center_index
  let anchor_start := segStartQ ts center
  let anchor_end := segEndQ ts center
  let anchor_text := segText ts center
  let is_edu_anchor :=
    isEducationalContent anchor_text || classify anchor_text == "educational"
  let max_expansions := if is_edu_anchor then 6 else 4
  bwPass8 ts n anchor_end
    (bwPass7 ts n max_duration max_post_context anchor_end
      (bwPass6 ts min_duration
        (bwPass5 ts min_duration
          (bwPass4 ts min_duration
            (bwPass3 ts n max_duration anchor_text
              (bwExpandMax ts n is_edu_anchor max_duration max_pre_context
                max_post_context anchor_start anchor_end max_expansions
                (bwExpandMin ts n min_duration max_pre_context max_post_context
                  anchor_start anchor_end (n + 1) (center, center))))))))

/-- The final timestamp lines of `_build_window_around`:
`start = max(0.0, seg_start(l) - pre_roll)`, `end = seg_end(r) + post_roll`,
then the degeneracy clamp `end = start + 1.0` when `end <= start`. -/
def bwFinal (ts : List Seg) (l r : Nat) (pre_roll post_roll : Q) :
    Nat × Nat × Q × Q :=
  let start := Q.pymax 0 (segStartQ ts l - pre_roll)
  let finish := segEndQ ts r + post_roll
  let finish := if finish ≤ start then start + 1 else finish
  (l, r, start, finish)

/-- `_build_window_around`: window indices, then timestamps with roll. -/
def build_window_around (ts : List Seg) (center_index : Nat)
    (min_duration max_duration pre_roll post_roll max_pre_context max_post_context : Q) :
    Nat × Nat × Q × Q :=
  let lr := bwCore ts center_index min_duration max_duration max_pre_context max_post_context
  bwFinal ts lr.1 lr.2 pre_roll post_roll

/-! ### `detect_highlights` -/

/-- One output candidate `{start, end, score, category, reason, transcript}`
(`finish` models the Python key `"end"`, a reserved word in Lean). -/
structure Cand where
  start : Q
  finish : Q
  score : Int
  category : String
  reason : String
  transcript : String

/-- The per-request data that STEP 1–2 of `detect_highlights` precompute and
the candidate-building loops read. -/
structure DetectCtx where
  ts : List Seg
  n : Nat
  seg_scores : List Int
  seg_punch : List Bool
  seg_core_passes : List Bool
  educational_anchors : List Nat
  editorial_bias : EditorialBiasProfile
  learning_profile : Option EditorialLearningProfile

def ctxScore (ctx : DetectCtx) (i : Nat) : Int := ctx.seg_scores.getD i 0

def ctxPunch (ctx : DetectCtx) (i : Nat) : Bool := ctx.seg_punch.getD i false

def ctxCore (ctx : DetectCtx) (i : Nat) : Bool := ctx.seg_core_passes.getD i false

/-- GATE 3 meaningful-segment count. -/
def countMeaningful (ts : List Seg) (l r : Nat) : Nat :=
  ((List.range' l (r + 1 - l)).filter (fun i =>
    let seg_text := segText ts i
    seg_text ≠ "" && decide (3 ≤ (pyTokenize seg_text).length) &&
      ((calculateCoreEditorialPass seg_text).1 || decide (5 ≤ (pyTokenize seg_text).length)))).length

/-- The category-specific GATE 1 hard minimum of `detect_highlights`. -/
def hardMinFor (anchor_text : String) : Q :=
  let cat := classify anchor_text
  if isPunchline anchor_text then 8
  else if cat == "educational" then 18
  else if cat == "warning" || cat == "lesson_learned" then 15
  else if cat == "insight" then 12
  else 12

def hangingEndings : List String :=
  ["jadi", "artinya", "berarti", "makanya", "pertanyaannya"]

/-- The GATE 5 insight rules, shared by the primary pass and the backfill
pass (the two passes differ only in how `is_punchline_clip` is obtained). -/
def insightGate (lp : Option EditorialLearningProfile)
    (is_punchline_clip is_edu_window : Bool) (window_text : String) : Bool :=
  let comps := insightComponents window_text
  let insight_pass := (hasInsightStructure window_text).1
  if is_punchline_clip ∧ comps.1 = true ∧ ¬(comps.2.1 = true ∨ comps.2.2 = true) then false
  else
    let insight_required := !is_edu_window ||
      (match lp with | some l => l.require_insight_all | none => false)
    if insight_required ∧ ¬insight_pass = true then false else true

/-- The hard 60-second cap `if end - start > max_clip_len: end = start + max_clip_len`
applied by both the primary pass and the backfill pass. -/
def capSixty (s e : Q) : Q := if 60 < e - s then s + 60 else e

/-- STEP 4 (blend) and STEP 5 (bonuses, penalties, editorial bias) of
`detect_highlights` for one anchor: everything that produces the final
score.  Returns `(final_score, bias_reasons, duration_bonus, hook_reason,
has_full_insight)` for the checks and the reason trail. -/
def paScoreBias (ctx : DetectCtx) (idx l r : Nat) (start wend : Q) :
    Int × List String × Int × Option String × Bool :=
  let anchor_text := segText ctx.ts idx
  let clip_duration := wend - start
  let cat := classify anchor_text
  let window_text := windowText ctx.ts l r
  let is_edu_window := isEducationalContent window_text
  let window_segment_texts := (List.range' l (r + 1 - l)).map (segText ctx.ts)
  let is_complete := (checkInformationalCompleteness window_segment_texts).1
  let is_punchline_clip := ctxPunch ctx idx || isPunchline window_text
  let comps := insightComponents window_text
  let insight_pass := (hasInsightStructure window_text).1
  -- STEP 4 continued: blend anchor strength and window coherence
  let window_score := (score_text window_text).1
  let base1 : Int :=
    if is_edu_window then
      pyRound ((20 : Q) / 100 * Q.ofInt (ctxScore ctx idx) +
               (80 : Q) / 100 * Q.ofInt window_score)
    else
      pyRound ((70 : Q) / 100 * Q.ofInt (ctxScore ctx idx) +
               (30 : Q) / 100 * Q.ofInt window_score)
  -- STEP 5: bonuses and penalties
  let base2 := if is_punchline_clip then base1 + 3 else base1
  let opening_strictness :=
    match ctx.learning_profile with
    | some lp => lp.opening_strictness
    | none => 0
  let hook := hookPositionScore idx l r opening_strictness
  let base3 := base2 + hook.1
  let is_edu := cat == "educational"
  let duration_bonus : Int :=
    if is_punchline_clip then
      if 8 ≤ clip_duration ∧ clip_duration ≤ 18 then 2
      else if clip_duration < 8 ∨ 25 < clip_duration then -2
      else 0
    else if is_edu then
      let d1 : Int :=
        if 20 ≤ clip_duration ∧ clip_duration ≤ 35 then 4
        else if 18 ≤ clip_duration ∧ clip_duration < 20 then 2
        else if clip_duration < 18 then -4
        else 0
      let d2 := if 60 < clip_duration then d1 - 3 else d1
      if is_complete ∧ 20 ≤ clip_duration ∧ clip_duration ≤ 35 then d2 + 2 else d2
    else if cat == "hard_advice" then
      if 12 ≤ clip_duration ∧ clip_duration ≤ 25 then 2
      else if clip_duration < 10 ∨ 30 < clip_duration then -1
      else 0
    else if cat == "lesson_learned" then
      if 18 ≤ clip_duration ∧ clip_duration ≤ 35 then 2
      else if clip_duration < 15 then -1
      else 0
    else
      if 15 ≤ clip_duration ∧ clip_duration ≤ 30 then 2
      else if clip_duration < 12 ∨ 40 < clip_duration then -1
      else 0
  let base4 := base3 + duration_bonus
  let base5 :=
    if is_complete then (if is_edu then base4 + 2 + 1 else base4 + 2) else base4
  let window_words := pyTokenize (pyLower window_text)
  let has_claim := window_words.any (fun w => claimWords.contains w)
  let has_support := window_words.any (fun w => supportWords.contains w)
  let base6 := if has_claim && has_support then base5 + 1 else base5
  let has_full_insight := comps.1 && comps.2.1 && comps.2.2
  let base7 := if has_full_insight then base6 + 2 else base6
  -- Apply editorial learning bias
  let anchor_start_time := segStartQ ctx.ts idx
  let hook_position : Q :=
    if 0 < clip_duration then (anchor_start_time - start) / clip_duration
    else (5 : Q) / 10
  let ab := apply_editorial_bias base7 cat clip_duration is_punchline_clip
    hook_position ctx.editorial_bias [] ctx.learning_profile
    (some insight_pass) (some has_full_insight)
  (ab.1, ab.2, duration_bonus, hook.2, has_full_insight)

/-- STEP 6 of `detect_highlights`: the final validation checks.  Each
disjunct is one `continue` of the source, in order; they are pure, so the
ordered short-circuit `continue`s amount to this disjunction. -/
def paScoreReject (ctx : DetectCtx) (idx l r : Nat) (start wend : Q) : Bool :=
  let anchor_text := segText ctx.ts idx
  let num_segments := r - l + 1
  let clip_duration := wend - start
  let cat := classify anchor_text
  let is_punch := isPunchline anchor_text
  let window_text := windowText ctx.ts l r
  let wcp := calculateCoreEditorialPass window_text
  let meaningful_segments := countMeaningful ctx.ts l r
  let is_edu_window := isEducationalContent window_text
  let window_segment_texts := (List.range' l (r + 1 - l)).map (segText ctx.ts)
  let is_complete := (checkInformationalCompleteness window_segment_texts).1
  let is_punchline_clip := ctxPunch ctx idx || isPunchline window_text
  let final_score := (paScoreBias ctx idx l r start wend).1
  let is_edu := cat == "educational"
  -- Check 1: minimum score threshold
  let min_score : Int := if is_punchline_clip then 4 else if is_edu then 5 else 6
  let final_segment_text := pyLower (pyStrip (segText ctx.ts r))
  decide (final_score < min_score) ||
  -- Check 2: category-specific hard minimum duration
  (is_edu && decide (clip_duration < 18)) ||
  (!is_punch && decide (clip_duration < 12)) ||
  -- Check 3: informational completeness re-check
  (!is_complete && (is_edu || decide (wcp.2 < 8))) ||
  -- Check 4: never end on hanging transitions/questions
  (hangingEndings.any (fun hw => pyEndsWith final_segment_text hw) ||
   containsSub final_segment_text "?") ||
  -- Check 5: educational clips must have 3+ segments
  (is_edu && decide (num_segments < 3)) ||
  -- Check 6: claim + support (minimum 2 meaningful segments) re-check
  (decide (meaningful_segments < 2) && !(is_edu_window && decide (3 ≤ num_segments)))

/-- STEP 6 (final validation checks) and STEP 7 (reason assembly and
candidate emission) of `detect_highlights` for one anchor.  The window data
`(l, r, start, wend)` comes from the caller; window-derived values are
recomputed from it (they are pure functions of the window). -/
def paScore (ctx : DetectCtx) (idx l r : Nat) (start wend : Q) : Option Cand :=
  if paScoreReject ctx idx l r start wend then none
  else
    let anchor_text := segText ctx.ts idx
    let clip_duration := wend - start
    let cat := classify anchor_text
    let profile_reasons := (dynamicWindowProfile anchor_text ctx.learning_profile).2
    let window_text := windowText ctx.ts l r
    let is_punchline_clip := ctxPunch ctx idx || isPunchline window_text
    let insight_reasons := (hasInsightStructure window_text).2
    let window_reasons := (score_text window_text).2
    let pf := paScoreBias ctx idx l r start wend
    let final_score := pf.1
    let bias_reasons := pf.2.1
    let duration_bonus := pf.2.2.1
    let hook_reason := pf.2.2.2.1
    let has_full_insight := pf.2.2.2.2
    -- STEP 7: build the reason string
    let bits0 : List String := if is_punchline_clip then ["Punchline"] else []
    let bits1 := bits0 ++ profile_reasons
    let bits2 := if has_full_insight then bits1 ++ ["Insight lengkap"] else bits1
    let bits3 := bits2 ++ insight_reasons.take 1
    let bits4 := match hook_reason with
      | some hr => bits3 ++ [hr]
      | none => bits3
    let bits5 :=
      if 0 < duration_bonus then
        bits4 ++ ["Durasi optimal (" ++ fmtInt (pyRound clip_duration) ++ "s)"]
      else bits4
    let bits6 := bits5 ++ bias_reasons
    let bits7 := bits6 ++ window_reasons.take 2
    let reason :=
      if bits7.isEmpty then "Editorial heuristic"
      else joinWith "; " (compressReasons bits7 5)
    some ⟨start, wend, final_score, cat, reason, window_text⟩

/-- GATES 2–5 of the primary pass (window-level checks).  Each disjunct is
one `continue` of the source, in order. -/
def paGatesReject (ctx : DetectCtx) (idx l r : Nat) (start wend : Q) : Bool :=
  let num_segments := r - l + 1
  let clip_duration := wend - start
  let window_text := windowText ctx.ts l r
  let wcp := calculateCoreEditorialPass window_text
  let meaningful_segments := countMeaningful ctx.ts l r
  let is_edu_window := isEducationalContent window_text
  let window_segment_texts := (List.range' l (r + 1 - l)).map (segText ctx.ts)
  let is_complete := (checkInformationalCompleteness window_segment_texts).1
  let is_punchline_clip := ctxPunch ctx idx || isPunchline window_text
  -- GATE 2: the complete window must pass the core editorial check
  !wcp.1 ||
  -- GATE 3: multiple meaningful segments
  (decide (meaningful_segments < 2) && !(is_edu_window && decide (3 ≤ num_segments))) ||
  -- GATE 4: informational completeness
  (is_edu_window && !is_complete) ||
  (!is_complete && decide (wcp.2 < 8)) ||
  (is_edu_window && decide (num_segments < 3)) ||
  (is_edu_window && decide (clip_duration < 20) && !is_complete) ||
  -- GATE 5: insight completion layer
  !insightGate ctx.learning_profile is_punchline_clip is_edu_window window_text

/-- GATES 2–5 of the primary pass, then STEP 4–7 (`paScore`). -/
def paGates (ctx : DetectCtx) (idx l r : Nat) (start wend : Q) : Option Cand :=
  if paGatesReject ctx idx l r start wend then none
  else paScore ctx idx l r start wend

/-- STEP 3–7 of `detect_highlights`: process one ranked anchor; `none`
models `continue` (any gate failing), `some c` the appended candidate. -/
def processAnchor (ctx : DetectCtx) (idx : Nat) (candidates : List Cand) : Option Cand :=
  let anchor_text := segText ctx.ts idx
  let core_pass := (calculateCoreEditorialPass anchor_text).1
  let is_edu_anchor := ctx.educational_anchors.contains idx
  -- Strict gate: anchor must pass core OR be a punchline OR an educational anchor
  if !core_pass && !ctxPunch ctx idx && !is_edu_anchor then none
  else
    let prof := (dynamicWindowProfile anchor_text ctx.learning_profile).1
    let bw := build_window_around ctx.ts idx prof.min_duration prof.max_duration
      prof.pre_roll prof.post_roll prof.max_pre_context prof.max_post_context
    let l := bw.1
    let r := bw.2.1
    let start := bw.2.2.1
    -- Enforce hard max clip length of 60s
    let wend := capSixty start bw.2.2.2
    -- Deduplicate: skip if too similar to an existing candidate
    if candidates.any (fun c => (3 : Q) / 5 ≤ overlapIou start wend c.start c.finish) then none
    else
      -- GATE 1: hard minimum duration enforcement
      let num_segments := r - l + 1
      let clip_duration := wend - start
      if clip_duration < hardMinFor anchor_text then none
      else if num_segments < 2 ∧ clip_duration < 10 then none
      else paGates ctx idx l r start wend

/-- STEP 3 loop: iterate ranked anchors, stop once `max_results = 5` stand. -/
def primaryLoop (ctx : DetectCtx) : List Nat → List Cand → List Cand
  | [], acc => acc
  | idx :: rest, acc =>
    if 5 ≤ acc.length then acc
    else
      match processAnchor ctx idx acc with
      | some c => primaryLoop ctx rest (acc ++ [c])
      | none => primaryLoop ctx rest acc

/-- STEP 8: one backfill attempt for a fallback anchor. -/
def backfillStep (ctx : DetectCtx) (idx : Nat) (candidates : List Cand) : Option Cand :=
  -- STRICT: backfill must pass the core check and a score floor
  if !ctxCore ctx idx then none
  else if ctxScore ctx idx < 3 then none
  else
    let anchor_text := segText ctx.ts idx
    let pr := dynamicWindowProfile anchor_text ctx.learning_profile
    let prof := pr.1
    let profile_reasons := pr.2
    let bw := build_window_around ctx.ts idx prof.min_duration prof.max_duration
      prof.pre_roll prof.post_roll prof.max_pre_context prof.max_post_context
    let l := bw.1
    let r := bw.2.1
    let start := bw.2.2.1
    -- Cap at 60s
    let wend := capSixty start bw.2.2.2
    -- Skip if overlapping an existing candidate
    if candidates.any (fun c => (3 : Q) / 5 ≤ overlapIou start wend c.start c.finish) then none
    else
      -- Final window must ALSO pass the core check
      let window_text := windowText ctx.ts l r
      if !(calculateCoreEditorialPass window_text).1 then none
      else
        -- Insight completion layer (same rules as the primary path)
        let is_edu_window := isEducationalContent window_text
        let is_punchline_clip := isPunchline window_text
        let comps := insightComponents window_text
        if !insightGate ctx.learning_profile is_punchline_clip is_edu_window window_text then none
        else
          let window_score := (score_text window_text).1
          let score0 := pyRound ((70 : Q) / 100 * Q.ofInt (ctxScore ctx idx) +
                                 (30 : Q) / 100 * Q.ofInt window_score)
          let full := comps.1 && comps.2.1 && comps.2.2
          let score := if full then score0 + 2 else score0
          some ⟨start, wend, score, classify window_text,
            "Backfill berkualitas (lulus core check)" ++
              (if !profile_reasons.isEmpty then "; " ++ joinWith "; " profile_reasons else "") ++
              (if full then "; Insight lengkap" else ""),
            window_text⟩

/-- STEP 8 loop: fill until `min_results` candidates exist. -/
def backfillLoop (ctx : DetectCtx) (min_results : Nat) : List Nat → List Cand → List Cand
  | [], acc => acc
  | idx :: rest, acc =>
    if min_results ≤ acc.length then acc
    else
      match backfillStep ctx idx acc with
      | some c => backfillLoop ctx min_results rest (acc ++ [c])
      | none => backfillLoop ctx min_results rest acc

/-- Stable insertion for a descending sort: `ge y x` keeps `y` in front of a
later-inserted `x`, which reproduces Python's stable `sorted(..., reverse=True)`. -/
def insertDescBy (ge : α → α → Bool) (x : α) : List α → List α
  | [] => [x]
  | y :: ys => if ge y x then y :: insertDescBy ge x ys else x :: y :: ys

def stableSortDescBy (ge : α → α → Bool) (l : List α) : List α :=
  l.foldl (fun acc x => insertDescBy ge x acc) []

/-- `peak_rank`: `(is_punchline, passes_core, score)` as integers. -/
def peakKey (ctx : DetectCtx) (i : Nat) : Int × Int × Int :=
  (boolInt (ctxPunch ctx i), boolInt (ctxCore ctx i), ctxScore ctx i)

/-- Lexicographic `≥` on integer triples (for descending ranking). -/
def tripleGE (a b : Int × Int × Int) : Bool :=
  decide (b.1 < a.1) ||
    (a.1 == b.1 &&
      (decide (b.2.1 < a.2.1) || (a.2.1 == b.2.1 && decide (b.2.2 ≤ a.2.2))))

/-- Lexicographic `≥` on integer pairs (for the backfill fallback order). -/
def pairGE (a b : Int × Int) : Bool :=
  decide (b.1 < a.1) || (a.1 == b.1 && decide (b.2 ≤ a.2))

/-- STEP 9 comparison: descending `(score, -(end - start))`. -/
def candGE (y x : Cand) : Bool :=
  decide (x.score < y.score) ||
    (y.score == x.score && decide (y.finish - y.start ≤ x.finish - x.start))

/-- STEP 3–8 of `detect_highlights`: the primary pass over the ranked
anchors followed, when fewer than `min_results` candidates stand, by the
backfill pass over all segments ranked by `(passes_core, score)`. -/
def collectCands (ctx : DetectCtx) (min_results : Nat) (ranked_indices : List Nat) :
    List Cand :=
  let candidates := primaryLoop ctx ranked_indices []
  if candidates.length < min_results then
    let fallback_order := stableSortDescBy
      (fun y x => pairGE (boolInt (ctxCore ctx y), ctxScore ctx y)
                         (boolInt (ctxCore ctx x), ctxScore ctx x))
      (List.range ctx.n)
    backfillLoop ctx min_results fallback_order candidates
  else candidates

/-- STEP 9 of `detect_highlights`: stable sort by `(score desc, duration
asc)`, the dynamic quality cutoff `max(6, best - 3)` with its
`min_results` fallbacks, and the `max_results = 5` truncation. -/
def step9 (min_results : Nat) (candidates : List Cand) : List Cand :=
  let sortedCands := stableSortDescBy candGE candidates
  match sortedCands with
  | [] => []
  | best :: _ =>
    let cutoff := max 6 (best.score - 3)
    let filtered := sortedCands.filter (fun c => cutoff ≤ c.score)
    let final :=
      if min_results ≤ filtered.length then filtered
      else if min_results ≤ sortedCands.length then sortedCands.take min_results
      else sortedCands
    final.take 5

/-- `detect_highlights(transcript, db_session=None, learning_profile,
editorial_bias)`.  A `none` bias argument takes the source's
`load_editorial_bias(None)` path, which returns the zero profile. -/
def detect_highlights (transcript : List Seg)
    (editorial_bias_arg : Option EditorialBiasProfile)
    (learning_profile : Option EditorialLearningProfile) : List Cand :=
  match transcript with
  | [] => []
  | _ =>
    let editorial_bias :=
      match editorial_bias_arg with
      | some b => b
      | none => EditorialBiasProfile.default
    -- Preprocessing: clean each segment's text, preserving timing data
    let ts := transcript.map (fun seg => { seg with text := cleanTranscriptText seg.text })
    let n := ts.length
    let min_results := if 20 ≤ ts.length then 2 else 1
    -- STEP 1: score each segment
    let seg_scores := ts.map (fun seg => (score_text seg.text).1)
    let seg_punch := ts.map (fun seg => isPunchline seg.text)
    let seg_core_passes := ts.map (fun seg => (calculateCoreEditorialPass seg.text).1)
    -- STEP 2: anchor candidates (local peaks + punchlines + core passes)
    let peak_threshold := adaptivePeakThreshold seg_scores
    let sc := fun i => seg_scores.getD i 0
    let peaks0 := (List.range n).filter (fun i =>
      let s := sc i
      !(decide (s < peak_threshold) && !seg_punch.getD i false && !seg_core_passes.getD i false) &&
        (let left : Int := if 0 < i then sc (i - 1) else -(10 ^ 9)
         let right : Int := if i < n - 1 then sc (i + 1) else -(10 ^ 9)
         decide (left ≤ s) && decide (right ≤ s) && (decide (left < s) || decide (right < s))))
    let peaks1 := peaks0 ++ (List.range n).filter (fun i =>
      (seg_punch.getD i false || seg_core_passes.getD i false) && !peaks0.contains i)
    let educational_anchors := detectEducationalSequences ts 3
    let peaks2 := peaks1 ++ educational_anchors.filter (fun i => !peaks1.contains i)
    let peaks :=
      if peaks2.isEmpty then
        (stableSortDescBy (fun y x => decide (sc x ≤ sc y)) (List.range n)).take
          (max 6 (min_results * 2))
      else peaks2
    let ctx : DetectCtx :=
      ⟨ts, n, seg_scores, seg_punch, seg_core_passes, educational_anchors,
       editorial_bias, learning_profile⟩
    let ranked_indices :=
      stableSortDescBy (fun y x => tripleGE (peakKey ctx y) (peakKey ctx x)) peaks
    -- STEP 3–8: build clips around anchors, then backfill if needed
    -- STEP 9: sort and filter final results
    step9 min_results (collectCands ctx min_results ranked_indices)

/-! ## Predicates and concrete inputs used by the verification -/

/-- Well-formedness of an emitted candidate: non-negative start, positive
length, at most 60 seconds. -/
def CandWF (c : Cand) : Prop :=
  0 ≤ c.start ∧ c.start < c.finish ∧ c.finish - c.start ≤ 60

/-- Symmetric formulation of "temporal IoU below 0.60" for a candidate
pair (the IoU of a pair is one number; on unnormalized fractions the two
argument orders give numerically equal values, so we carry both). -/
def IoUBelow (a b : Cand) : Prop :=
  overlapIou a.start a.finish b.start b.finish < (3 : Q) / 5 ∧
  overlapIou b.start b.finish a.start a.finish < (3 : Q) / 5

/-- Equality of `Q` representations is decidable (numerator and denominator
decide it; the positivity field is proof-irrelevant). -/
instance : DecidableEq Q := fun x y =>
  if h : x.num = y.num ∧ x.den = y.den then
    isTrue (by
      obtain ⟨h1, h2⟩ := h
      cases x
      cases y
      dsimp only at h1 h2
      subst h1
      subst h2
      rfl)
  else
    isFalse (fun he => h (by subst he; exact ⟨rfl, rfl⟩))

instance : DecidableEq Cand := fun a b =>
  if h : a.start = b.start ∧ a.finish = b.finish ∧ a.score = b.score ∧
         a.category = b.category ∧ a.reason = b.reason ∧ a.transcript = b.transcript then
    isTrue (by
      obtain ⟨h1, h2, h3, h4, h5, h6⟩ := h
      cases a
      cases b
      dsimp only at h1 h2 h3 h4 h5 h6
      subst h1
      subst h2
      subst h3
      subst h4
      subst h5
      subst h6
      rfl)
  else
    isFalse (fun he => h (by subst he; exact ⟨rfl, rfl, rfl, rfl, rfl, rfl⟩))

/-- A one-segment transcript: a single meaningful insight-like sentence of
5 seconds.  The primary pass rejects it (its window is shorter than every
hard minimum), so the output candidate comes from the backfill pass. -/
def exSeg1 : List Seg :=
  [⟨0, 5, "memang kuncinya sederhana karena latihan rutin membuat kemajuan nyata"⟩]

/-- A two-segment transcript whose first segment is filler: the left-trim
loop of `_build_window_around` removes the anchor segment itself. -/
def exSeg2 : List Seg :=
  [⟨0, 3, "eee gitu ya"⟩,
   ⟨3, 10, "memang kuncinya sederhana karena latihan rutin membuat kemajuan nyata"⟩]

/-- A three-segment transcript on which the primary pass emits a candidate
(anchor 0 passes the core check, the 19-second window passes GATES 1–5). -/
def exSeg3 : List Seg :=
  [⟨0, 6, "kuncinya adalah latihan konsisten setiap hari membuat kemajuan nyata karena otak menyukai pengulangan"⟩,
   ⟨6, 6, "hasilnya terlihat dalam sebulan kalau kamu menjaga ritme latihan dengan disiplin"⟩,
   ⟨12, 6, "disiplin kecil yang berulang memberikan hasil besar dalam jangka panjang"⟩]

/-- `exSeg1` after the preprocessing (text cleaning) step. -/
def exTs1 : List Seg := exSeg1.map (fun seg => { seg with text := cleanTranscriptText seg.text })

/-- The `DetectCtx` that `detect_highlights exSeg1 none none` builds in
STEP 1–2 (zero editorial bias, no learning profile). -/
def exCtx1 : DetectCtx :=
  ⟨exTs1, exTs1.length,
   exTs1.map (fun seg => (score_text seg.text).1),
   exTs1.map (fun seg => isPunchline seg.text),
   exTs1.map (fun seg => (calculateCoreEditorialPass seg.text).1),
   detectEducationalSequences exTs1 3,
   EditorialBiasProfile.default, none⟩

/-- `exSeg3` after the preprocessing (text cleaning) step. -/
def exTs3 : List Seg := exSeg3.map (fun seg => { seg with text := cleanTranscriptText seg.text })

/-- The `DetectCtx` that `detect_highlights exSeg3 none none` builds. -/
def exCtx3 : DetectCtx :=
  ⟨exTs3, exTs3.length,
   exTs3.map (fun seg => (score_text seg.text).1),
   exTs3.map (fun seg => isPunchline seg.text),
   exTs3.map (fun seg => (calculateCoreEditorialPass seg.text).1),
   detectEducationalSequences exTs3 3,
   EditorialBiasProfile.default, none⟩

/-- Default candidate used only to make total the extraction of concrete
candidates below. -/
def dfltCand : Cand := ⟨0, 1, 0, "", "", ""⟩

/-- The single candidate `detect_highlights` returns on `exSeg1`. -/
def exCand1 : Cand := (detect_highlights exSeg1 none none).getD 0 dfltCand

/-- The candidate one backfill attempt emits on `exCtx1` at index 0. -/
def exBack1 : Cand := (backfillStep exCtx1 0 []).getD dfltCand

/-- The candidate the primary pass emits on `exCtx3` at anchor 0. -/
def exPrim3 : Cand := (processAnchor exCtx3 0 []).getD dfltCand

/-- STEP 9 as the spec's claim describes it: the quality cutoff keeps
exactly the candidates scoring within 3 points of the best (`best - 3`),
with the `min_results` fallbacks and the truncation to 5.  This differs
from `step9`, whose cutoff is `max 6 (best.score - 3)`. -/
def step9Claim (min_results : Nat) (candidates : List Cand) : List Cand :=
  let sortedCands := stableSortDescBy candGE candidates
  match sortedCands with
  | [] => []
  | best :: _ =>
    let cutoff := best.score - 3
    let filtered := sortedCands.filter (fun c => cutoff ≤ c.score)
    let final :=
      if min_results ≤ filtered.length then filtered
      else if min_results ≤ sortedCands.length then sortedCands.take min_results
      else sortedCands
    final.take 5

/-- A score-7 candidate over `[0, 10]`. -/
def cA : Cand := ⟨0, 10, 7, "insight", "r", "t"⟩

/-- A score-5 candidate over `[20, 30]`, disjoint from `cA` and within 3
points of its score. -/
def cB : Cand := ⟨20, 30, 5, "insight", "r", "t"⟩

/-! ## Basic order facts about `Q` -/

theorem Q.not_lt {x y : Q} : ¬ x < y ↔ y ≤ x := Int.not_lt

theorem Q.not_le {x y : Q} : ¬ x ≤ y ↔ y < x := Int.not_le

theorem Q.le_refl (x : Q) : x ≤ x := Int.le_refl _

theorem Q.le_of_lt {x y : Q} (h : x < y) : x ≤ y := Int.le_of_lt h

theorem Q.pymax_zero_nonneg (x : Q) : (0 : Q) ≤ Q.pymax 0 x := by
  unfold Q.pymax
  split
  · exact Q.le_refl 0
  · next hc => exact Q.le_of_lt (Q.not_le.mp hc)

/-! ## Range invariants of the window builder -/

theorem bwExpandMin_le (ts : List Seg) (n : Nat) (a b c d e : Q) :
    ∀ fuel lr, lr.1 ≤ lr.2 → (bwExpandMin ts n a b c d e fuel lr).1 ≤
      (bwExpandMin ts n a b c d e fuel lr).2 := by
  intro fuel
  induction fuel with
  | zero => intro lr h; simpa [bwExpandMin] using h
  | succ k ih =>
    intro lr h
    obtain ⟨l, r⟩ := lr
    simp only [bwExpandMin]
    split
    · split
      · exact ih (l, r + 1) (by omega)
      · split
        · exact ih (l - 1, r) (by omega)
        · exact h
    · exact h

theorem bwExpandMax_le (ts : List Seg) (n : Nat) (ea : Bool) (a b c d e : Q) :
    ∀ fuel lr, lr.1 ≤ lr.2 → (bwExpandMax ts n ea a b c d e fuel lr).1 ≤
      (bwExpandMax ts n ea a b c d e fuel lr).2 := by
  intro fuel
  induction fuel with
  | zero => intro lr h; simpa [bwExpandMax] using h
  | succ k ih =>
    intro lr h
    obtain ⟨l, r⟩ := lr
    simp only [bwExpandMax]
    split
    · exact h
    · split
      · exact ih (l, r + 1) (by omega)
      · split
        · exact ih (l - 1, r) (by omega)
        · exact h

theorem bwPunchForce_ge (ts : List Seg) (n : Nat) (m : Q) (l : Nat) :
    ∀ fuel r, r ≤ bwPunchForce ts n m l fuel r := by
  intro fuel
  induction fuel with
  | zero => intro r; simp [bwPunchForce]
  | succ k ih =>
    intro r
    simp only [bwPunchForce]
    split
    · split
      · exact Nat.le_refl r
      · split
        · omega
        · exact Nat.le_trans (by omega) (ih (r + 1))
    · exact Nat.le_refl r

theorem bwTrimLeft_le (ts : List Seg) (m : Q) (r : Nat) :
    ∀ fuel l, l ≤ r → bwTrimLeft ts m r fuel l ≤ r := by
  intro fuel
  induction fuel with
  | zero => intro l h; simpa [bwTrimLeft] using h
  | succ k ih =>
    intro l h
    simp only [bwTrimLeft]
    split
    · next hc =>
      split
      · exact ih (l + 1) (by omega)
      · exact h
    · exact h

theorem bwTrimRight_ge (ts : List Seg) (m : Q) (l : Nat) :
    ∀ fuel r, l ≤ r → l ≤ bwTrimRight ts m l fuel r := by
  intro fuel
  induction fuel with
  | zero => intro r h; simpa [bwTrimRight] using h
  | succ k ih =>
    intro r h
    simp only [bwTrimRight]
    split
    · next hc =>
      split
      · exact ih (r - 1) (by omega)
      · exact h
    · exact h

theorem bwHangRepair_le (ts : List Seg) (m : Q) (r : Nat) :
    ∀ fuel l, l ≤ r → bwHangRepair ts m r fuel l ≤ r := by
  intro fuel
  induction fuel with
  | zero => intro l h; simpa [bwHangRepair] using h
  | succ k ih =>
    intro l h
    simp only [bwHangRepair]
    split
    · next hc =>
      split
      · split
        · omega
        · exact ih (l + 1) (by omega)
      · exact h
    · exact h

theorem bwForceResolution_ge (ts : List Seg) (n : Nat) (l : Nat) (a b c : Q) :
    ∀ fuel r, r ≤ bwForceResolution ts n l a b c fuel r := by
  intro fuel
  induction fuel with
  | zero => intro r; simp [bwForceResolution]
  | succ k ih =>
    intro r
    simp only [bwForceResolution]
    split
    · split
      · split
        · split
          · exact Nat.le_trans (by omega) (ih (r + 1))
          · exact Nat.le_refl r
        · exact Nat.le_refl r
      · exact Nat.le_refl r
    · exact Nat.le_refl r

theorem bwEduFloor_ge (ts : List Seg) (n : Nat) (l : Nat) (e : Q) :
    ∀ fuel r, r ≤ bwEduFloor ts n l e fuel r := by
  intro fuel
  induction fuel with
  | zero => intro r; simp [bwEduFloor]
  | succ k ih =>
    intro r
    simp only [bwEduFloor]
    split
    · split
      · split
        · exact Nat.le_trans (by omega) (ih (r + 1))
        · exact Nat.le_refl r
      · exact Nat.le_refl r
    · exact Nat.le_refl r

/-- The window indices computed by `bwCore` always satisfy
`left_index ≤ right_index`. -/
theorem bwPass3_le (ts : List Seg) (n : Nat) (m : Q) (at_ : String)
    (lr : Nat × Nat) (h : lr.1 ≤ lr.2) :
    (bwPass3 ts n m at_ lr).1 ≤ (bwPass3 ts n m at_ lr).2 := by
  unfold bwPass3
  dsimp only
  split
  · split
    · exact Nat.le_trans h (bwPunchForce_ge ts n m lr.1 12 lr.2)
    · exact h
  · exact h

theorem bwPass4_le (ts : List Seg) (m : Q) (lr : Nat × Nat) (h : lr.1 ≤ lr.2) :
    (bwPass4 ts m lr).1 ≤ (bwPass4 ts m lr).2 :=
  bwTrimLeft_le ts m lr.2 (lr.2 + 1) lr.1 h

theorem bwPass5_le (ts : List Seg) (m : Q) (lr : Nat × Nat) (h : lr.1 ≤ lr.2) :
    (bwPass5 ts m lr).1 ≤ (bwPass5 ts m lr).2 :=
  bwTrimRight_ge ts m lr.1 (lr.2 + 1) lr.2 h

theorem bwPass6_le (ts : List Seg) (m : Q) (lr : Nat × Nat) (h : lr.1 ≤ lr.2) :
    (bwPass6 ts m lr).1 ≤ (bwPass6 ts m lr).2 := by
  unfold bwPass6
  dsimp only
  split
  · exact bwHangRepair_le ts m lr.2 5 lr.1 h
  · exact h

theorem bwPass7_le (ts : List Seg) (n : Nat) (a b c : Q) (lr : Nat × Nat)
    (h : lr.1 ≤ lr.2) : (bwPass7 ts n a b c lr).1 ≤ (bwPass7 ts n a b c lr).2 :=
  Nat.le_trans h (bwForceResolution_ge ts n lr.1 a b c 8 lr.2)

theorem bwPass8_le (ts : List Seg) (n : Nat) (e : Q) (lr : Nat × Nat)
    (h : lr.1 ≤ lr.2) : (bwPass8 ts n e lr).1 ≤ (bwPass8 ts n e lr).2 := by
  unfold bwPass8
  dsimp only
  split
  · exact Nat.le_trans h (bwEduFloor_ge ts n lr.1 e 8 lr.2)
  · exact h

/-- The window indices computed by `bwCore` always satisfy
`left_index ≤ right_index`. -/
theorem bwCore_le (ts : List Seg) (c : Nat) (mind maxd mpre mpost : Q) :
    (bwCore ts c mind maxd mpre mpost).1 ≤ (bwCore ts c mind maxd mpre mpost).2 := by
  unfold bwCore
  exact bwPass8_le _ _ _ _ (bwPass7_le _ _ _ _ _ _ (bwPass6_le _ _ _ (bwPass5_le _ _ _
    (bwPass4_le _ _ _ (bwPass3_le _ _ _ _ _ (bwExpandMax_le _ _ _ _ _ _ _ _ _ _
      (bwExpandMin_le _ _ _ _ _ _ _ _ _ (Nat.le_refl _))))))))

theorem bwFinal_fst (ts : List Seg) (l r : Nat) (pre post : Q) :
    (bwFinal ts l r pre post).1 = l := rfl

theorem bwFinal_snd_fst (ts : List Seg) (l r : Nat) (pre post : Q) :
    (bwFinal ts l r pre post).2.1 = r := rfl

theorem build_window_eq (ts : List Seg) (c : Nat) (p1 p2 p3 p4 p5 p6 : Q) :
    build_window_around ts c p1 p2 p3 p4 p5 p6 =
      bwFinal ts (bwCore ts c p1 p2 p5 p6).1 (bwCore ts c p1 p2 p5 p6).2 p3 p4 := rfl

/-- `_build_window_around` always returns `left_index ≤ right_index`. -/
theorem build_window_le (ts : List Seg) (c : Nat) (p1 p2 p3 p4 p5 p6 : Q) :
    (build_window_around ts c p1 p2 p3 p4 p5 p6).1 ≤
      (build_window_around ts c p1 p2 p3 p4 p5 p6).2.1 := by
  rw [build_window_eq, bwFinal_fst, bwFinal_snd_fst]
  exact bwCore_le ts c p1 p2 p5 p6

/-! ## Arithmetic facts about `Q` used by the candidate invariants -/

theorem Q.add_num (x y : Q) : (x + y).num = x.num * y.den + y.num * x.den := rfl

theorem Q.add_den (x y : Q) : (x + y).den = x.den * y.den := rfl

theorem Q.sub_num (x y : Q) : (x - y).num = x.num * y.den - y.num * x.den := rfl

theorem Q.sub_den (x y : Q) : (x - y).den = x.den * y.den := rfl

theorem Q.le_iff {x y : Q} : x ≤ y ↔ x.num * y.den ≤ y.num * x.den := Iff.rfl

theorem Q.lt_iff {x y : Q} : x < y ↔ x.num * y.den < y.num * x.den := Iff.rfl

theorem Q.ofNat_num (n : Nat) : (OfNat.ofNat n : Q).num = OfNat.ofNat n := rfl

theorem Q.ofNat_den (n : Nat) : (OfNat.ofNat n : Q).den = 1 := rfl

/-- Adding a positive constant increases a fraction. -/
theorem Q.lt_add_of_pos (s c : Q) (h : 0 < c.num) : s < s + c := by
  rw [Q.lt_iff, Q.add_num, Q.add_den]
  have hs := s.pos
  have hc := c.pos
  nlinarith [mul_pos hs hs, mul_pos hs hc]

/-- `(s + c) - s ≤ c` (an identity on exact fractions). -/
theorem Q.add_sub_le (s c : Q) : (s + c) - s ≤ c := by
  rw [Q.le_iff, Q.sub_num, Q.sub_den, Q.add_num, Q.add_den]
  have hs := s.pos
  have hc := c.pos
  nlinarith [mul_pos hs hs, mul_pos hc (mul_pos hs hs)]

/-- The `start`/`end` pair returned by `bwFinal` is well-formed. -/
theorem bwFinal_start_nonneg (ts : List Seg) (l r : Nat) (pre post : Q) :
    0 ≤ (bwFinal ts l r pre post).2.2.1 := by
  unfold bwFinal
  dsimp only
  exact Q.pymax_zero_nonneg _

theorem bwFinal_start_lt_finish (ts : List Seg) (l r : Nat) (pre post : Q) :
    (bwFinal ts l r pre post).2.2.1 < (bwFinal ts l r pre post).2.2.2 := by
  unfold bwFinal
  dsimp only
  split
  · exact Q.lt_add_of_pos _ 1 (by decide)
  · next hc => exact Q.not_le.mp hc

theorem build_window_start_nonneg (ts : List Seg) (c : Nat) (p1 p2 p3 p4 p5 p6 : Q) :
    0 ≤ (build_window_around ts c p1 p2 p3 p4 p5 p6).2.2.1 := by
  rw [build_window_eq]
  exact bwFinal_start_nonneg ..

theorem build_window_start_lt_finish (ts : List Seg) (c : Nat) (p1 p2 p3 p4 p5 p6 : Q) :
    (build_window_around ts c p1 p2 p3 p4 p5 p6).2.2.1 <
      (build_window_around ts c p1 p2 p3 p4 p5 p6).2.2.2 := by
  rw [build_window_eq]
  exact bwFinal_start_lt_finish ..

/-- The 60-second cap written at the top of the primary and backfill passes:
after `if end - start > 60: end = start + 60`, the result is `> start` and
within 60 of it. -/
theorem capSixty_spec (s e : Q) (hlt : s < e) :
    s < (if 60 < e - s then s + 60 else e) ∧
      (if 60 < e - s then s + 60 else e) - s ≤ 60 := by
  split
  · exact ⟨Q.lt_add_of_pos s 60 (by decide), Q.add_sub_le s 60⟩
  · next hc => exact ⟨hlt, Q.not_lt.mp hc⟩

/-! ## Candidate invariants -/

theorem capSixty_well (s e : Q) (h0 : 0 ≤ s) (hlt : s < e) :
    0 ≤ s ∧ s < capSixty s e ∧ capSixty s e - s ≤ 60 := by
  unfold capSixty
  obtain ⟨h1, h2⟩ := capSixty_spec s e hlt
  exact ⟨h0, h1, h2⟩

/-- Whatever `paScore` emits carries the window timestamps and text it was
given. -/
theorem paScore_shape (ctx : DetectCtx) (idx l r : Nat) (start wend : Q)
    (c : Cand) (h : paScore ctx idx l r start wend = some c) :
    c.start = start ∧ c.finish = wend ∧ c.transcript = windowText ctx.ts l r := by
  unfold paScore at h
  split at h
  · exact absurd h (by simp)
  · rw [Option.some.injEq] at h
    subst h
    exact ⟨rfl, rfl, rfl⟩

/-- Whatever `paGates` emits carries the window timestamps and text. -/
theorem paGates_shape (ctx : DetectCtx) (idx l r : Nat) (start wend : Q)
    (c : Cand) (h : paGates ctx idx l r start wend = some c) :
    c.start = start ∧ c.finish = wend ∧ c.transcript = windowText ctx.ts l r := by
  unfold paGates at h
  split at h
  · exact absurd h (by simp)
  · exact paScore_shape ctx idx l r start wend c h

/-- Any candidate emitted by the primary pass is well-formed, meets the
category hard minimum of GATE 1, and overlaps every already-accepted
candidate by an IoU strictly below 0.60. -/
theorem processAnchor_spec (ctx : DetectCtx) (idx : Nat) (cands : List Cand)
    (c : Cand) (h : processAnchor ctx idx cands = some c) :
    CandWF c ∧ hardMinFor (segText ctx.ts idx) ≤ c.finish - c.start ∧
      ∀ c' ∈ cands, overlapIou c.start c.finish c'.start c'.finish < (3 : Q) / 5 := by
  unfold processAnchor at h
  dsimp only at h
  split at h
  · exact absurd h (by simp)
  split at h
  · exact absurd h (by simp)
  rename_i hdedup
  split at h
  · exact absurd h (by simp)
  rename_i hmin
  split at h
  · exact absurd h (by simp)
  obtain ⟨hs, hf, -⟩ := paGates_shape _ _ _ _ _ _ _ h
  refine ⟨?_, ?_, ?_⟩
  · unfold CandWF
    rw [hs, hf]
    exact capSixty_well _ _
      (build_window_start_nonneg ctx.ts idx _ _ _ _ _ _)
      (build_window_start_lt_finish ctx.ts idx _ _ _ _ _ _)
  · rw [hs, hf]
    exact Q.not_lt.mp hmin
  · intro c' hc'
    rw [hs, hf]
    simp only [List.any_eq_true, decide_eq_true_eq, not_exists] at hdedup
    exact Q.not_le.mp (fun hle => hdedup c' ⟨hc', hle⟩)

/-- Any candidate emitted by one backfill attempt is well-formed, passes
GATE 2 (window core check) and GATE 5 (insight rules) on its own window
text, and overlaps every already-accepted candidate by an IoU strictly
below 0.60.  GATES 1, 3 and 4 are not applied on this path. -/
theorem backfillStep_spec (ctx : DetectCtx) (idx : Nat) (cands : List Cand)
    (c : Cand) (h : backfillStep ctx idx cands = some c) :
    CandWF c ∧
      (calculateCoreEditorialPass c.transcript).1 = true ∧
      insightGate ctx.learning_profile (isPunchline c.transcript)
        (isEducationalContent c.transcript) c.transcript = true ∧
      ∀ c' ∈ cands, overlapIou c.start c.finish c'.start c'.finish < (3 : Q) / 5 := by
  unfold backfillStep at h
  dsimp only at h
  split at h
  · exact absurd h (by simp)
  split at h
  · exact absurd h (by simp)
  split at h
  · exact absurd h (by simp)
  rename_i hdedup
  split at h
  · exact absurd h (by simp)
  rename_i hcore
  split at h
  · exact absurd h (by simp)
  rename_i hinsight
  rw [Option.some.injEq] at h
  subst h
  refine ⟨?_, ?_, ?_, ?_⟩
  · unfold CandWF
    dsimp only
    exact capSixty_well _ _
      (build_window_start_nonneg ctx.ts idx _ _ _ _ _ _)
      (build_window_start_lt_finish ctx.ts idx _ _ _ _ _ _)
  · simpa using hcore
  · simpa using hinsight
  · intro c' hc'
    simp only [List.any_eq_true, decide_eq_true_eq, not_exists] at hdedup
    exact Q.not_le.mp (fun hle => hdedup c' ⟨hc', hle⟩)

/-! ## Representation-independence of the IoU comparison

`Q` values are unnormalized, so `_overlap_ratio` applied to the two
orderings of a candidate pair yields numerically equal but structurally
different fractions; these lemmas transport the `< 0.60` comparison. -/

theorem Q.ext {x y : Q} (hn : x.num = y.num) (hd : x.den = y.den) : x = y := by
  cases x
  cases y
  dsimp only at hn hd
  subst hn
  subst hd
  rfl

theorem Q.equiv_refl (x : Q) : Q.equiv x x := rfl

theorem Q.equiv_symm {x y : Q} (h : Q.equiv x y) : Q.equiv y x := h.symm

theorem Q.equiv_of_eq {x y : Q} (h : x = y) : Q.equiv x y := by rw [h]; exact Q.equiv_refl y

theorem Q.le_of_le_of_equiv {x x' y : Q} (h1 : x ≤ y) (h : Q.equiv x x') : x' ≤ y := by
  rw [Q.le_iff] at h1 ⊢
  unfold Q.equiv at h
  have h2 : x.num * y.den * x'.den ≤ y.num * x.den * x'.den :=
    mul_le_mul_of_nonneg_right h1 x'.pos.le
  have h4 : y.den * (x.num * x'.den) = y.den * (x'.num * x.den) := by rw [h]
  have h3 : x'.num * y.den * x.den ≤ y.num * x'.den * x.den := by nlinarith
  exact le_of_mul_le_mul_right h3 x.pos

theorem Q.le_of_le_of_equiv_right {x y y' : Q} (h1 : x ≤ y) (h : Q.equiv y y') : x ≤ y' := by
  rw [Q.le_iff] at h1 ⊢
  unfold Q.equiv at h
  have h2 : x.num * y.den * y'.den ≤ y.num * x.den * y'.den :=
    mul_le_mul_of_nonneg_right h1 y'.pos.le
  have h4 : x.den * (y.num * y'.den) = x.den * (y'.num * y.den) := by rw [h]
  have h3 : x.num * y'.den * y.den ≤ y'.num * x.den * y.den := by nlinarith
  exact le_of_mul_le_mul_right h3 y.pos

theorem Q.le_congr_left {x x' y : Q} (h : Q.equiv x x') : x ≤ y ↔ x' ≤ y :=
  ⟨fun h1 => Q.le_of_le_of_equiv h1 h, fun h1 => Q.le_of_le_of_equiv h1 (Q.equiv_symm h)⟩

theorem Q.lt_of_lt_of_equiv {x x' y : Q} (h1 : x < y) (h : Q.equiv x x') : x' < y := by
  by_contra h2
  have h3 : y ≤ x' := Q.not_lt.mp h2
  have h4 : y ≤ x := Q.le_of_le_of_equiv_right h3 (Q.equiv_symm h) |>.trans_eq rfl
  exact absurd h4 (Q.not_le.mpr h1)

theorem Q.pymin_comm (x y : Q) : Q.equiv (Q.pymin x y) (Q.pymin y x) := by
  unfold Q.pymin
  split
  · split
    · next hxy hyx =>
      rw [Q.le_iff] at hxy hyx
      exact le_antisymm hxy hyx
    · exact Q.equiv_refl x
  · split
    · exact Q.equiv_refl y
    · next hxy hyx =>
      rw [Q.not_le, Q.lt_iff] at hxy hyx
      omega

theorem Q.pymax_comm (x y : Q) : Q.equiv (Q.pymax x y) (Q.pymax y x) := by
  unfold Q.pymax
  split
  · split
    · next hxy hyx =>
      rw [Q.le_iff] at hxy hyx
      exact le_antisymm hyx hxy
    · exact Q.equiv_refl x
  · split
    · exact Q.equiv_refl y
    · next hxy hyx =>
      rw [Q.not_le, Q.lt_iff] at hxy hyx
      omega

theorem Q.sub_congr {a a' b b' : Q} (ha : Q.equiv a a') (hb : Q.equiv b b') :
    Q.equiv (a - b) (a' - b') := by
  unfold Q.equiv at ha hb ⊢
  rw [Q.sub_num, Q.sub_den, Q.sub_num, Q.sub_den]
  linear_combination (b.den * b'.den) * ha - (a.den * a'.den) * hb

theorem Q.pymax_congr_right {c x x' : Q} (h : Q.equiv x x') :
    Q.equiv (Q.pymax c x) (Q.pymax c x') := by
  unfold Q.pymax
  by_cases hc : x ≤ c
  · rw [if_pos hc, if_pos ((Q.le_congr_left h).mp hc)]
    exact Q.equiv_refl c
  · rw [if_neg hc, if_neg (fun hx' => hc ((Q.le_congr_left h).mpr hx'))]
    exact h

theorem Q.add_comm_eq (x y : Q) : x + y = y + x := by
  refine Q.ext ?_ ?_
  · rw [Q.add_num, Q.add_num]
    ring
  · rw [Q.add_den, Q.add_den]
    ring

theorem Q.div_congr {x x' y y' : Q} (hx : Q.equiv x x') (hy : Q.equiv y y') :
    Q.equiv (x / y) (x' / y') := by
  show Q.equiv (Q.divQ x y) (Q.divQ x' y')
  unfold Q.equiv at hx hy
  unfold Q.divQ
  have hyd := y.pos
  have hyd' := y'.pos
  by_cases hpos : 0 < y.num
  · have hpos' : 0 < y'.num := by nlinarith
    rw [dif_pos hpos, dif_pos hpos']
    unfold Q.equiv
    dsimp only
    linear_combination (y.den * y'.num) * hx - (x'.num * x.den) * hy
  · by_cases hneg : y.num < 0
    · have hneg' : y'.num < 0 := by nlinarith
      rw [dif_neg hpos, dif_pos hneg, dif_neg (by omega : ¬ 0 < y'.num), dif_pos hneg']
      unfold Q.equiv
      dsimp only
      linear_combination (y.den * y'.num) * hx - (x'.num * x.den) * hy
    · have hz : y.num = 0 := by omega
      have hz' : y'.num = 0 := by nlinarith
      rw [dif_neg hpos, dif_neg hneg, dif_neg (by omega : ¬ 0 < y'.num),
        dif_neg (by omega : ¬ y'.num < 0)]
      exact Q.equiv_refl _

/-- `_overlap_ratio` is symmetric up to numeric equivalence of fractions. -/
theorem overlapIou_comm (a b c d : Q) :
    Q.equiv (overlapIou a b c d) (overlapIou c d a b) := by
  unfold overlapIou
  dsimp only
  have hinter : Q.equiv (Q.pymax 0 (Q.pymin b d - Q.pymax a c))
      (Q.pymax 0 (Q.pymin d b - Q.pymax c a)) :=
    Q.pymax_congr_right (Q.sub_congr (Q.pymin_comm b d) (Q.pymax_comm a c))
  have hsum : (b - a) + (d - c) = (d - c) + (b - a) := Q.add_comm_eq _ _
  have hunion : Q.equiv
      (Q.pymax ((1 : Q) / 1000000000) ((b - a) + (d - c) - Q.pymax 0 (Q.pymin b d - Q.pymax a c)))
      (Q.pymax ((1 : Q) / 1000000000) ((d - c) + (b - a) - Q.pymax 0 (Q.pymin d b - Q.pymax c a))) := by
    refine Q.pymax_congr_right (Q.sub_congr ?_ hinter)
    exact Q.equiv_of_eq hsum
  exact Q.div_congr hinter hunion

/-- Transport the strict IoU bound across the argument swap. -/
theorem overlapIou_lt_comm {a b c d e : Q}
    (h : overlapIou a b c d < e) : overlapIou c d a b < e :=
  Q.lt_of_lt_of_equiv h (overlapIou_comm a b c d)

/-! ## Loop and pipeline invariants of `detect_highlights` -/

theorem primaryLoop_forall (ctx : DetectCtx) (P : Cand → Prop)
    (hstep : ∀ idx acc c, processAnchor ctx idx acc = some c → P c) :
    ∀ idxs acc, (∀ c ∈ acc, P c) → ∀ c ∈ primaryLoop ctx idxs acc, P c := by
  intro idxs
  induction idxs with
  | nil =>
    intro acc hacc c hc
    simp only [primaryLoop] at hc
    exact hacc c hc
  | cons i rest ih =>
    intro acc hacc c hc
    simp only [primaryLoop] at hc
    split at hc
    · exact hacc c hc
    · cases hpa : processAnchor ctx i acc with
      | none => rw [hpa] at hc; exact ih acc hacc c hc
      | some c0 =>
        rw [hpa] at hc
        refine ih (acc ++ [c0]) ?_ c hc
        intro c' hc'
        rcases List.mem_append.mp hc' with hm | hm
        · exact hacc c' hm
        · rw [List.mem_singleton.mp hm]
          exact hstep i acc c0 hpa

theorem backfillLoop_forall (ctx : DetectCtx) (m : Nat) (P : Cand → Prop)
    (hstep : ∀ idx acc c, backfillStep ctx idx acc = some c → P c) :
    ∀ idxs acc, (∀ c ∈ acc, P c) → ∀ c ∈ backfillLoop ctx m idxs acc, P c := by
  intro idxs
  induction idxs with
  | nil =>
    intro acc hacc c hc
    simp only [backfillLoop] at hc
    exact hacc c hc
  | cons i rest ih =>
    intro acc hacc c hc
    simp only [backfillLoop] at hc
    split at hc
    · exact hacc c hc
    · cases hpa : backfillStep ctx i acc with
      | none => rw [hpa] at hc; exact ih acc hacc c hc
      | some c0 =>
        rw [hpa] at hc
        refine ih (acc ++ [c0]) ?_ c hc
        intro c' hc'
        rcases List.mem_append.mp hc' with hm | hm
        · exact hacc c' hm
        · rw [List.mem_singleton.mp hm]
          exact hstep i acc c0 hpa

theorem IoUBelow_symm : ∀ {a b : Cand}, IoUBelow a b → IoUBelow b a :=
  fun h => ⟨h.2, h.1⟩

theorem primaryLoop_pairwise (ctx : DetectCtx) :
    ∀ idxs acc, acc.Pairwise IoUBelow → (primaryLoop ctx idxs acc).Pairwise IoUBelow := by
  intro idxs
  induction idxs with
  | nil => intro acc hacc; simpa only [primaryLoop] using hacc
  | cons i rest ih =>
    intro acc hacc
    simp only [primaryLoop]
    split
    · exact hacc
    · cases hpa : processAnchor ctx i acc with
      | none => exact ih acc hacc
      | some c0 =>
        refine ih (acc ++ [c0]) ?_
        rw [List.pairwise_append]
        refine ⟨hacc, List.pairwise_singleton _ _, ?_⟩
        intro a ha b hb
        rw [List.mem_singleton.mp hb]
        have hover := (processAnchor_spec ctx i acc c0 hpa).2.2 a ha
        exact ⟨overlapIou_lt_comm hover, hover⟩

theorem backfillLoop_pairwise (ctx : DetectCtx) (m : Nat) :
    ∀ idxs acc, acc.Pairwise IoUBelow →
      (backfillLoop ctx m idxs acc).Pairwise IoUBelow := by
  intro idxs
  induction idxs with
  | nil => intro acc hacc; simpa only [backfillLoop] using hacc
  | cons i rest ih =>
    intro acc hacc
    simp only [backfillLoop]
    split
    · exact hacc
    · cases hpa : backfillStep ctx i acc with
      | none => exact ih acc hacc
      | some c0 =>
        refine ih (acc ++ [c0]) ?_
        rw [List.pairwise_append]
        refine ⟨hacc, List.pairwise_singleton _ _, ?_⟩
        intro a ha b hb
        rw [List.mem_singleton.mp hb]
        have hover := (backfillStep_spec ctx i acc c0 hpa).2.2.2 a ha
        exact ⟨overlapIou_lt_comm hover, hover⟩

/-- `insertDescBy` only permutes (it inserts). -/
theorem insertDescBy_perm (ge : α → α → Bool) (x : α) :
    ∀ l, List.Perm (insertDescBy ge x l) (x :: l) := by
  intro l
  induction l with
  | nil => simp [insertDescBy]
  | cons y ys ih =>
    simp only [insertDescBy]
    split
    · exact (ih.cons y).trans (List.Perm.swap x y ys)
    · exact List.Perm.refl _

/-- The stable descending sort is a permutation. -/
theorem stableSortDescBy_perm (ge : α → α → Bool) (l : List α) :
    List.Perm (stableSortDescBy ge l) l := by
  unfold stableSortDescBy
  suffices h : ∀ (l acc : List α),
      List.Perm (List.foldl (fun acc x => insertDescBy ge x acc) acc l) (acc ++ l) by
    simpa using h l []
  intro l
  induction l with
  | nil => intro acc; simp
  | cons x xs ih =>
    intro acc
    simp only [List.foldl_cons]
    refine (ih (insertDescBy ge x acc)).trans ?_
    refine ((insertDescBy_perm ge x acc).append_right xs).trans ?_
    simpa using List.perm_middle.symm

/-- Everything `step9` returns was already among the collected candidates. -/
theorem step9_subset (m : Nat) (l : List Cand) : ∀ c ∈ step9 m l, c ∈ l := by
  intro c hc
  unfold step9 at hc
  dsimp only at hc
  rcases hs : stableSortDescBy candGE l with _ | ⟨best, rest⟩ <;> rw [hs] at hc
  · simp at hc
  · have hmem : ∀ x ∈ best :: rest, x ∈ l := by
      intro x hx
      have hperm := stableSortDescBy_perm candGE l
      rw [hs] at hperm
      exact hperm.mem_iff.mp hx
    have h5 := List.take_subset 5 _ hc
    split at h5
    · exact hmem c (List.mem_of_mem_filter h5)
    · split at h5
      · exact hmem c (List.take_subset _ _ h5)
      · exact hmem c h5

/-- `step9` preserves any symmetric pairwise property of the collected
candidates (it only sorts, filters and truncates). -/
theorem step9_pairwise {R : Cand → Cand → Prop} (hsymm : ∀ {a b}, R a b → R b a)
    (m : Nat) (l : List Cand) (hl : l.Pairwise R) : (step9 m l).Pairwise R := by
  have hsorted : (stableSortDescBy candGE l).Pairwise R :=
    ((stableSortDescBy_perm candGE l).pairwise_iff (fun h => hsymm h)).mpr hl
  unfold step9
  dsimp only
  rcases hs : stableSortDescBy candGE l with _ | ⟨best, rest⟩ <;> rw [hs] at hsorted
  · exact List.Pairwise.nil
  · refine List.Pairwise.sublist ((List.take_sublist _ _).trans ?_) hsorted
    split
    · exact List.filter_sublist _
    · split
      · exact List.take_sublist _ _
      · exact List.Sublist.refl _

/-- Every candidate produced by STEP 3–8 satisfies any property enjoyed by
both the primary-pass and backfill emissions. -/
theorem collectCands_forall (ctx : DetectCtx) (m : Nat) (ranked : List Nat)
    (P : Cand → Prop)
    (hp : ∀ idx acc c, processAnchor ctx idx acc = some c → P c)
    (hb : ∀ idx acc c, backfillStep ctx idx acc = some c → P c) :
    ∀ c ∈ collectCands ctx m ranked, P c := by
  intro c hc
  unfold collectCands at hc
  dsimp only at hc
  split at hc
  · exact backfillLoop_forall ctx m P hb _ _
      (primaryLoop_forall ctx P hp ranked [] (by simp)) c hc
  · exact primaryLoop_forall ctx P hp ranked [] (by simp) c hc

theorem collectCands_pairwise (ctx : DetectCtx) (m : Nat) (ranked : List Nat) :
    (collectCands ctx m ranked).Pairwise IoUBelow := by
  unfold collectCands
  dsimp only
  split
  · exact backfillLoop_pairwise ctx m _ _
      (primaryLoop_pairwise ctx ranked [] List.Pairwise.nil)
  · exact primaryLoop_pairwise ctx ranked [] List.Pairwise.nil

/-! ## End-to-end invariants of `detect_highlights` -/

theorem detect_highlights_nil (bp : Option EditorialBiasProfile)
    (lp : Option EditorialLearningProfile) : detect_highlights [] bp lp = [] := rfl

/-- Every candidate in a `detect_highlights` result is well-formed. -/
theorem detect_highlights_mem_wf (t : List Seg) (bp : Option EditorialBiasProfile)
    (lp : Option EditorialLearningProfile) :
    ∀ c ∈ detect_highlights t bp lp, CandWF c := by
  intro c hc
  cases t with
  | nil => exact absurd hc (List.not_mem_nil c)
  | cons s rest =>
    simp only [detect_highlights] at hc
    dsimp only at hc
    have h1 := step9_subset _ _ c hc
    exact collectCands_forall _ _ _ CandWF
      (fun idx acc c h => (processAnchor_spec _ idx acc c h).1)
      (fun idx acc c h => (backfillStep_spec _ idx acc c h).1) c h1

/-- Any two candidates in a `detect_highlights` result overlap by an IoU
strictly below 0.60 (in both argument orders of the unnormalized IoU). -/
theorem detect_highlights_pairwise (t : List Seg) (bp : Option EditorialBiasProfile)
    (lp : Option EditorialLearningProfile) :
    (detect_highlights t bp lp).Pairwise IoUBelow := by
  cases t with
  | nil => exact List.Pairwise.nil
  | cons s rest =>
    simp only [detect_highlights]
    dsimp only
    exact step9_pairwise (fun h => IoUBelow_symm h) _ _ (collectCands_pairwise _ _ _)

/-! ## The claims -/

/-- C1: for every call to `apply_editorial_bias` — any base score, category,
clip duration, punchline flag, hook position, bias profile, reasons list,
learning profile and insight flags — the returned final score differs from
`base_score` by at most 4 in absolute value. -/
theorem claim_C1_bias_bounded (b : Int) (cat : String) (d : Q) (p : Bool) (hp : Q)
    (bp : EditorialBiasProfile) (rs : List String)
    (lp : Option EditorialLearningProfile) (ip fi : Option Bool) :
    |(apply_editorial_bias b cat d p hp bp rs lp ip fi).1 - b| ≤ 4 := by
  unfold apply_editorial_bias
  split
  · simp
  · rcases hb : biasAccum cat d p hp bp lp ip fi with ⟨a12, t12⟩
    dsimp only
    have h1 : -4 ≤ intClamp t12 (-4) 4 ∧ intClamp t12 (-4) 4 ≤ 4 := by
      unfold intClamp
      omega
    rw [abs_le]
    omega

/-- C2: with a zero `EditorialBiasProfile` and an absent-or-zero
`EditorialLearningProfile`, `apply_editorial_bias` returns the base score
unchanged and appends nothing to the reasons list. -/
theorem claim_C2_zero_profile_noop (b : Int) (cat : String) (d : Q) (p : Bool)
    (hp : Q) (bp : EditorialBiasProfile) (rs : List String)
    (lp : Option EditorialLearningProfile) (ip fi : Option Bool)
    (hz : bp.is_zero = true) (hl : learningAbsentOrZero lp = true) :
    apply_editorial_bias b cat d p hp bp rs lp ip fi = (b, rs) := by
  unfold apply_editorial_bias
  rw [hz, hl]
  rfl

/-- Witness for C2 at a concrete input: base score 5, zero bias profile,
no learning profile. -/
theorem claim_C2_zero_profile_noop_witness :
    apply_editorial_bias 5 "insight" 20 false 0 EditorialBiasProfile.default []
      none none none = (5, []) :=
  claim_C2_zero_profile_noop 5 "insight" 20 false 0 EditorialBiasProfile.default []
    none none none rfl rfl

/-- C3, counterexample: on the one-segment transcript `exSeg1`,
`detect_highlights` emits a candidate (via the backfill pass) whose
duration is strictly below the category hard minimum computed on its own
text — the claimed lower duration bound does not hold for backfill
candidates. -/
theorem claim_C3_counterexample :
    ∃ c ∈ detect_highlights exSeg1 none none,
      c.finish - c.start < hardMinFor c.transcript := by
  decide

/-- C3, amended: every candidate `detect_highlights` emits lasts at most
60 seconds, and every candidate emitted by the primary pass
(`processAnchor`) meets the category-specific hard minimum (8/12/15/18 s)
computed on its anchor text.  (The backfill pass enforces no lower
duration bound; see the counterexample.) -/
theorem claim_C3_amended :
    (∀ t bp lp, ∀ c ∈ detect_highlights t bp lp, c.finish - c.start ≤ 60) ∧
    (∀ ctx idx cands c, processAnchor ctx idx cands = some c →
      hardMinFor (segText ctx.ts idx) ≤ c.finish - c.start) :=
  ⟨fun t bp lp c hc => (detect_highlights_mem_wf t bp lp c hc).2.2,
   fun ctx idx cands c h => (processAnchor_spec ctx idx cands c h).2.1⟩

set_option maxRecDepth 100000 in
/-- Witness for C3 (amended) at concrete inputs: the backfill candidate on
`exSeg1` and the primary-pass candidate on `exCtx3`. -/
theorem claim_C3_amended_witness :
    exCand1.finish - exCand1.start ≤ 60 ∧
    hardMinFor (segText exCtx3.ts 0) ≤ exPrim3.finish - exPrim3.start :=
  ⟨claim_C3_amended.1 exSeg1 none none exCand1 (by decide),
   claim_C3_amended.2 exCtx3 0 [] exPrim3 (by decide)⟩

/-- C4: in any result list of `detect_highlights`, every pair of distinct
candidates has temporal IoU strictly below 0.60 (`IoUBelow` states the
comparison in both argument orders, so it covers unordered pairs). -/
theorem claim_C4_pairwise_iou (t : List Seg) (bp : Option EditorialBiasProfile)
    (lp : Option EditorialLearningProfile) :
    (detect_highlights t bp lp).Pairwise IoUBelow :=
  detect_highlights_pairwise t bp lp

/-- C5, counterexample: the candidate `detect_highlights` emits on
`exSeg1` comes from the backfill pass; its window is the single segment
`[0,0]`, and the primary pass's GATE 2–5 battery (`paGatesReject`)
rejects that very window (it has only 1 meaningful segment, under GATE
3's minimum of 2, with no 3-segment educational exception possible) — so
the backfill does NOT apply the same gates G2–G5. -/
theorem claim_C5_counterexample :
    exCand1 ∈ detect_highlights exSeg1 none none ∧
    exCand1.transcript = windowText exCtx1.ts 0 0 ∧
    countMeaningful exCtx1.ts 0 0 < 2 ∧
    paGatesReject exCtx1 0 0 0 exCand1.start exCand1.finish = true := by
  decide

/-- C5, amended: every candidate one backfill attempt emits passes GATE 2
(the core editorial check on its window text) and GATE 5 (the insight
rules); GATES 3 and 4 are not applied on the backfill path. -/
theorem claim_C5_amended (ctx : DetectCtx) (idx : Nat) (cands : List Cand)
    (c : Cand) (h : backfillStep ctx idx cands = some c) :
    (calculateCoreEditorialPass c.transcript).1 = true ∧
    insightGate ctx.learning_profile (isPunchline c.transcript)
      (isEducationalContent c.transcript) c.transcript = true :=
  ⟨(backfillStep_spec ctx idx cands c h).2.1,
   (backfillStep_spec ctx idx cands c h).2.2.1⟩

/-- Witness for C5 (amended) at a concrete input: the backfill candidate
on `exCtx1` at index 0. -/
theorem claim_C5_amended_witness :
    (calculateCoreEditorialPass exBack1.transcript).1 = true ∧
    insightGate exCtx1.learning_profile (isPunchline exBack1.transcript)
      (isEducationalContent exBack1.transcript) exBack1.transcript = true :=
  claim_C5_amended exCtx1 0 [] exBack1 (by decide)

/-- C6, counterexample: `step9Claim` transcribes the claimed rule (keep
exactly the candidates within 3 points of the best, with the
`min_results` fallback); the code's STEP 9 disagrees on two disjoint
candidates scoring 7 and 5 — the code's cutoff is `max 6 (best - 3) = 6`
and drops the score-5 candidate even though it is within 3 points. -/
theorem claim_C6_counterexample : step9 1 [cA, cB] ≠ step9Claim 1 [cA, cB] := by
  decide

/-- C6, amended: the cutoff of STEP 9 is `max 6 (best_score - 3)`, not
`best_score - 3`: whenever the sorted candidate list starts with `best`
and at least `min_results` candidates score at least
`max 6 (best.score - 3)`, the result is that filtered list truncated
to 5. -/
theorem claim_C6_amended (m : Nat) (l : List Cand) (best : Cand) (rest : List Cand)
    (hs : stableSortDescBy candGE l = best :: rest)
    (hlen : m ≤ ((best :: rest).filter
      (fun c => max 6 (best.score - 3) ≤ c.score)).length) :
    step9 m l = ((best :: rest).filter
      (fun c => max 6 (best.score - 3) ≤ c.score)).take 5 := by
  unfold step9
  dsimp only
  rw [hs]
  dsimp only
  rw [if_pos hlen]

/-- Witness for C6 (amended) at a concrete input: the two-candidate list
`[cA, cB]` with `min_results = 1`. -/
theorem claim_C6_amended_witness :
    step9 1 [cA, cB] = ((cA :: [cB]).filter
      (fun c => max 6 (cA.score - 3) ≤ c.score)).take 5 :=
  claim_C6_amended 1 [cA, cB] cA [cB] (by decide) (by decide)

/-- C7: `detect_highlights` is deterministic — as embedded it is a pure
function of the transcript and the two profiles (the source consults no
randomness, time or external state), so equal inputs give identical
candidate lists, field for field. -/
theorem claim_C7_deterministic (t₁ t₂ : List Seg)
    (bp₁ bp₂ : Option EditorialBiasProfile)
    (lp₁ lp₂ : Option EditorialLearningProfile)
    (ht : t₁ = t₂) (hb : bp₁ = bp₂) (hl : lp₁ = lp₂) :
    detect_highlights t₁ bp₁ lp₁ = detect_highlights t₂ bp₂ lp₂ := by
  rw [ht, hb, hl]

/-- Witness for C7 at a concrete input: two invocations on `exSeg1`. -/
theorem claim_C7_deterministic_witness :
    detect_highlights exSeg1 none none = detect_highlights exSeg1 none none :=
  claim_C7_deterministic exSeg1 exSeg1 none none none none rfl rfl rfl

/-- C8, counterexample: on `exSeg2` with center index 0 (in range) and the
engine-style parameters `(8, 18, 0.5, 1, 4, 10)`, the left-trim loop of
`_build_window_around` removes the filler anchor segment itself:
`left_index = 1 > center_index = 0`, refuting
`left_index ≤ center_index ≤ right_index`. -/
theorem claim_C8_counterexample :
    ¬ ((build_window_around exSeg2 0 8 18 ((5 : Q) / 10) 1 4 10).1 ≤ 0) := by
  decide

/-- C8, amended: the surviving window invariant — for every transcript,
center index and parameters, `_build_window_around` returns
`left_index ≤ right_index` (the anchor itself can be trimmed out). -/
theorem claim_C8_amended (ts : List Seg) (ci : Nat) (p1 p2 p3 p4 p5 p6 : Q) :
    (build_window_around ts ci p1 p2 p3 p4 p5 p6).1 ≤
      (build_window_around ts ci p1 p2 p3 p4 p5 p6).2.1 :=
  build_window_le ts ci p1 p2 p3 p4 p5 p6

/-- C9: `detect_highlights` is total (it is a Lean function): an empty
transcript yields the empty list, and every emitted candidate satisfies
`end > start`. -/
theorem claim_C9_total_degenerate :
    (∀ bp lp, detect_highlights [] bp lp = []) ∧
    (∀ t bp lp, ∀ c ∈ detect_highlights t bp lp, c.start < c.finish) :=
  ⟨fun _ _ => rfl,
   fun t bp lp c hc => (detect_highlights_mem_wf t bp lp c hc).2.1⟩

/-- Witness for C9 at a concrete input: the candidate emitted on `exSeg1`. -/
theorem claim_C9_total_degenerate_witness : exCand1.start < exCand1.finish :=
  claim_C9_total_degenerate.2 exSeg1 none none exCand1 (by decide)

/-- C10: every candidate `detect_highlights` emits starts at a
non-negative timestamp. -/
theorem claim_C10_nonneg_start (t : List Seg) (bp : Option EditorialBiasProfile)
    (lp : Option EditorialLearningProfile) :
    ∀ c ∈ detect_highlights t bp lp, 0 ≤ c.start :=
  fun c hc => (detect_highlights_mem_wf t bp lp c hc).1

/-- Witness for C10 at a concrete input: the candidate emitted on `exSeg1`. -/
theorem claim_C10_nonneg_start_witness : (0 : Q) ≤ exCand1.start :=
  claim_C10_nonneg_start exSeg1 none none exCand1 (by decide)
